import Mathlib

/-!
Verification of the partition-table synthesis engine of mkrawimg.

The definitions below are a shallow embedding of the validator
(`DeviceSpec::check`, src/device.rs lines 154-251) and the two table
builders (`ImageContext::partition_gpt`, lines 307-426, and
`ImageContext::partition_mbr`, lines 428-522).  Rust `u32`/`u64` values
are modelled as `Nat`, with explicit bounds where a conversion in the
source can fail.  Fallible code returns `Except String`.  Randomness
(`Uuid::new_v4`, `rand::random`) is modelled as an explicit input: a
stream `rng : Nat → Uuid` for the GPT builder and a `Nat` (the u32
`random_id`) for the MBR builder.  Device writes are modelled as a list
of `WriteEvent`s emitted in source order.

The pieces of the repository that are not under `src/` (the
partition-type registry of src/partition.rs, the filesystem-label check
of src/filesystem.rs) and the free-space primitives of the external
gptman/mbrman crates are modelled from the specification; each such
definition carries a doc comment starting with `Modelled from the spec:`.
-/

namespace Mkrawimg

/-- The forbidden character set, src/device.rs line 21:
apostrophe, double quote, backslash, slash, braces, brackets,
exclamation mark, backtick, asterisk, ampersand. -/
def FORBIDDEN_CHARS : List Char :=
  [Char.ofNat 39, Char.ofNat 34, Char.ofNat 92, Char.ofNat 47,
   Char.ofNat 123, Char.ofNat 125, Char.ofNat 91, Char.ofNat 93,
   Char.ofNat 33, Char.ofNat 96, Char.ofNat 42, Char.ofNat 38]

inductive PartitionMapType
  | MBR
  | GPT
deriving DecidableEq

inductive PartitionUsage
  | Rootfs
  | Boot
  | Other
deriving DecidableEq

/-- Modelled from the spec: the abstract partition-type tags of
src/partition.rs (not under src/).  `Swap` is named in the validator;
`LinuxHome` stands for a GPT-only tag with no MBR byte (section 4.2). -/
inductive PartitionType
  | Efi
  | Linux
  | Swap
  | LinuxHome
deriving DecidableEq

/-- Modelled from the spec: the filesystem kinds handled by the
filesystem collaborator (src/filesystem.rs, not under src/); the kinds
are those named by the mkfs runtime dependencies in src/main.rs. -/
inductive FilesystemType
  | Ext4
  | Btrfs
  | Xfs
  | Vfat
deriving DecidableEq

/-- A UUID as four RFC-4122 fields: `d1` (time_low, u32), `d2`
(time_mid, u16), `d3` (time_hi_and_version, u16) and eight trailing
bytes `b0` .. `b7`. -/
structure Uuid where
  d1 : Nat
  d2 : Nat
  d3 : Nat
  b0 : Nat
  b1 : Nat
  b2 : Nat
  b3 : Nat
  b4 : Nat
  b5 : Nat
  b6 : Nat
  b7 : Nat
deriving DecidableEq

def Uuid.WF (u : Uuid) : Prop :=
  u.d1 < 4294967296 ∧ u.d2 < 65536 ∧ u.d3 < 65536 ∧
  u.b0 < 256 ∧ u.b1 < 256 ∧ u.b2 < 256 ∧ u.b3 < 256 ∧
  u.b4 < 256 ∧ u.b5 < 256 ∧ u.b6 < 256 ∧ u.b7 < 256

instance (u : Uuid) : Decidable u.WF := by
  unfold Uuid.WF
  infer_instance

def uuidNil : Uuid := ⟨0, 0, 0, 0, 0, 0, 0, 0, 0, 0, 0⟩

/-- `Uuid::to_bytes_le` of the uuid crate, as used at src/device.rs
lines 332 and 351: the first three fields little-endian, the trailing
eight bytes unchanged. -/
def Uuid.toBytesLe (u : Uuid) : List Nat :=
  [u.d1 % 256, u.d1 / 256 % 256, u.d1 / 65536 % 256, u.d1 / 16777216 % 256,
   u.d2 % 256, u.d2 / 256 % 256,
   u.d3 % 256, u.d3 / 256 % 256,
   u.b0, u.b1, u.b2, u.b3, u.b4, u.b5, u.b6, u.b7]

/-- Decoding a 16-byte GPT GUID per the RFC-4122 mixed-endian rules:
the first three fields are read little-endian, the last two big-endian
(byte-wise). -/
def decodeMixedEndian (b : List Nat) : Option Uuid :=
  match b with
  | [a0, a1, a2, a3, c0, c1, e0, e1, f0, f1, f2, f3, f4, f5, f6, f7] =>
    some ⟨a0 + 256 * a1 + 65536 * a2 + 16777216 * a3,
          c0 + 256 * c1, e0 + 256 * e1, f0, f1, f2, f3, f4, f5, f6, f7⟩
  | _ => none

def hexDigit (n : Nat) : Char :=
  Char.ofNat (if n < 10 then 48 + n else 87 + n)

/-- Fixed-width lowercase hexadecimal rendering of `n` (low digits). -/
def hexDigits (w n : Nat) : List Char :=
  match w with
  | 0 => []
  | w + 1 => hexDigits w (n / 16) ++ [hexDigit (n % 16)]

def hexStr (w n : Nat) : String := ⟨hexDigits w n⟩

/-- The `Display` rendering of a uuid (8-4-4-4-12 lowercase hex). -/
def uuidToString (u : Uuid) : String :=
  hexStr 8 u.d1 ++ "-" ++ hexStr 4 u.d2 ++ "-" ++ hexStr 4 u.d3 ++ "-" ++
  hexStr 2 u.b0 ++ hexStr 2 u.b1 ++ "-" ++
  hexStr 2 u.b2 ++ hexStr 2 u.b3 ++ hexStr 2 u.b4 ++ hexStr 2 u.b5 ++
  hexStr 2 u.b6 ++ hexStr 2 u.b7

/-- Modelled from the spec: the Partition-Type Registry (section 4.2),
src/partition.rs is not under src/.  `to_uuid` maps a tag to its GPT
type GUID; it is used at src/device.rs line 369. -/
def PartitionType.to_uuid : PartitionType → Except String Uuid
  | .Efi => .ok ⟨0xC12A7328, 0xF81F, 0x11D2, 0xBA, 0x4B, 0x00, 0xA0, 0xC9, 0x3E, 0xC9, 0x3B⟩
  | .Linux => .ok ⟨0x0FC63DAF, 0x8483, 0x4772, 0x8E, 0x79, 0x3D, 0x69, 0xD8, 0x47, 0x7D, 0xE4⟩
  | .Swap => .ok ⟨0x0657FD6D, 0xA4AB, 0x43C4, 0x84, 0xE5, 0x09, 0x33, 0xC8, 0x4B, 0x4F, 0x4F⟩
  | .LinuxHome => .ok ⟨0x933AC7E1, 0x2EB4, 0x4F13, 0xB8, 0x44, 0x0E, 0x14, 0xE2, 0xAE, 0xF9, 0x15⟩

/-- Modelled from the spec: the Partition-Type Registry (section 4.2),
src/partition.rs is not under src/.  `to_byte` maps a tag to its MBR
type byte and fails for GPT-only tags; it is used at src/device.rs
line 488. -/
def PartitionType.to_byte : PartitionType → Except String Nat
  | .Efi => .ok 0xEF
  | .Linux => .ok 0x83
  | .Swap => .ok 0x82
  | .LinuxHome => .error "Partition type has no MBR representation"

/-- One partition of a DeviceSpec (struct PartitionSpec of
src/partition.rs, fields as used by src/device.rs). -/
structure PartitionSpec where
  num : Nat
  size : Nat
  part_type : PartitionType
  usage : PartitionUsage
  start_sector : Option Nat
  label : Option String
  fs_label : Option String
  filesystem : FilesystemType
deriving DecidableEq

/-- struct DeviceSpec, src/device.rs lines 57-107 (the fields consumed
by the validator and the builders). -/
structure DeviceSpec where
  id : String
  aliases : Option (List String)
  vendor : String
  of_compatible : Option String
  name : String
  model : Option String
  partition_map : PartitionMapType
  num_partitions : Nat
  partitions : List PartitionSpec
deriving DecidableEq

def isAsciiStr (s : String) : Bool :=
  s.data.all fun c => c.toNat ≤ 127

def containsForbidden (s : String) : Bool :=
  s.data.any fun c => FORBIDDEN_CHARS.contains c

/-- Per-field check of the identity group (`id`, `vendor`, aliases,
compatible string), src/device.rs lines 162-173. -/
def identCheck (s : String) : Except String Unit :=
  if isAsciiStr s = false then
    .error (s ++ " contains non-ASCII characters")
  else if containsForbidden s then
    .error (s ++ " contains one of the forbidden characters")
  else
    .ok ()

/-- Per-field check of the human-facing group (`name`, `model`),
src/device.rs lines 178-186: forbidden characters only, ASCII relaxed. -/
def nameCheck (s : String) : Except String Unit :=
  if containsForbidden s then
    .error (s ++ " contains one of the forbidden characters")
  else
    .ok ()

def checkEach (f : α → Except String Unit) : List α → Except String Unit
  | [] => .ok ()
  | x :: xs =>
    match f x with
    | .error e => .error e
    | .ok () => checkEach f xs

def identityStrings (d : DeviceSpec) : List String :=
  [d.id, d.vendor] ++ d.aliases.getD [] ++ d.of_compatible.toList

def humanStrings (d : DeviceSpec) : List String :=
  [d.name] ++ d.model.toList

/-- The capacity check, src/device.rs lines 199-211. -/
def capacityCheck (d : DeviceSpec) : Except String Unit :=
  match d.partition_map with
  | .MBR =>
    if 4 < d.partitions.length then
      .error "MBR partition map can contain up to 4 partitions"
    else .ok ()
  | .GPT =>
    if 128 < d.partitions.length then
      .error "Too many partitions for GPT"
    else .ok ()

/-- The per-partition label checks, src/device.rs lines 236-243.
`l.len()` in Rust is the UTF-8 byte length of the label. -/
def labelCheck (pm : PartitionMapType) (p : PartitionSpec) : Except String Unit :=
  match p.label with
  | none => .ok ()
  | some l =>
    if pm = PartitionMapType.MBR then
      .error ("MBR partition map does not allow partition labels, found one in partition "
        ++ toString p.num)
    else if 35 < l.utf8ByteSize then
      .error ("Label for partition " ++ toString p.num ++ " exceeds the 35-character limit")
    else .ok ()

/-- The partition scan of the validator, src/device.rs lines 215-246.
`root` is `root_part`, `last` is `last_partition_num`; the scan returns
the root partition found, if any. -/
def partScan (fsCheck : FilesystemType → Option String → Except String Unit)
    (pm : PartitionMapType) (root : Option PartitionSpec) (last : Nat) :
    List PartitionSpec → Except String (Option PartitionSpec)
  | [] => .ok root
  | p :: rest =>
    if p.part_type = PartitionType.Swap then
      .error "Swap partitions are not allowed on raw images."
    else if p.num = 0 then
      .error "Partition numbers should start from 1."
    else if p.num < last then
      .error "Please keep the partitions in order"
    else if p.num = last then
      .error ("Duplicate partition number: " ++ toString p.num)
    else if p.usage = PartitionUsage.Rootfs ∧ root.isSome then
      .error "More than one root partition defined"
    else
      let root2 := if p.usage = PartitionUsage.Rootfs then some p else root
      match labelCheck pm p with
      | .error e => .error e
      | .ok () =>
        match fsCheck p.filesystem p.fs_label with
        | .error e => .error e
        | .ok () => partScan fsCheck pm root2 p.num rest

/-- `DeviceSpec::check`, src/device.rs lines 154-251.  The
filesystem-label check (`partition.filesystem.check(&partition.fs_label)`,
line 245) is delegated to src/filesystem.rs, which is not under src/,
so it is passed in as the parameter `fsCheck`. -/
def DeviceSpec.check (fsCheck : FilesystemType → Option String → Except String Unit)
    (d : DeviceSpec) : Except String Unit :=
  match checkEach identCheck (identityStrings d) with
  | .error e => .error e
  | .ok () =>
    match checkEach nameCheck (humanStrings d) with
    | .error e => .error e
    | .ok () =>
      if d.partitions.isEmpty then
        .error "No partition defined for this device"
      else if d.num_partitions ≠ d.partitions.length then
        .error "Please update the num_partitions field"
      else
        match capacityCheck d with
        | .error e => .error e
        | .ok () =>
          match partScan fsCheck d.partition_map none 0 d.partitions with
          | .error e => .error e
          | .ok none => .error "No root partition defined"
          | .ok (some _) => .ok ()

/-- A filesystem-label check that accepts everything; used to
instantiate concrete examples. -/
def fsOkAll : FilesystemType → Option String → Except String Unit :=
  fun _ _ => .ok ()

/-! ## The table builders

The device is abstracted as its sector size and its total number of
sectors; device writes become `WriteEvent`s. -/

inductive WriteEvent
  | ProtectiveMbr
  | GptTable
  | MbrTable
  | Flush
deriving DecidableEq

/-- struct GPTPartitionEntry of the gptman crate as filled in at
src/device.rs lines 396-403 (`attribute_bits` is always 0 there and
`first_chs`/`last_chs` have no GPT counterpart). -/
structure GPTPartitionEntry where
  partition_type_guid : List Nat
  unique_partition_guid : List Nat
  starting_lba : Nat
  ending_lba : Nat
  attribute_bits : Nat
  partition_name : String
deriving DecidableEq

/-- struct MBRPartitionEntry of the mbrman crate as filled in at
src/device.rs lines 496-503 (`first_chs`/`last_chs` are always
`CHS::empty()` and are omitted). -/
structure MBRPartitionEntry where
  boot : Bool
  sys : Nat
  starting_lba : Nat
  sectors : Nat
deriving DecidableEq

/-- Assignment `table[num] = part` on a table indexed by partition
number: replace the entry at that number, or append it. -/
def upsert (k : Nat) (v : α) : List (Nat × α) → List (Nat × α)
  | [] => [(k, v)]
  | (k2, v2) :: rest =>
    if k = k2 then (k, v) :: rest else (k2, v2) :: upsert k v rest

def alignUp (a x : Nat) : Nat :=
  if a = 0 then x else (x + a - 1) / a * a

/-- Modelled from the spec: the free ranges of the allocator (section
4.3), ascending by start, covering all unoccupied space between the
occupied regions up to the last usable LBA.  `used` is sorted
ascending; ranges are inclusive `(start, end)` pairs and the result is
`(start, length)` pairs. -/
def freeGaps (cursor last : Nat) : List (Nat × Nat) → List (Nat × Nat)
  | [] => if cursor ≤ last then [(cursor, last + 1 - cursor)] else []
  | (s, e) :: rest =>
    (if cursor < s then [(cursor, s - cursor)] else []) ++
      freeGaps (max cursor (e + 1)) last rest

def insertByStart (x : Nat × Nat) : List (Nat × Nat) → List (Nat × Nat)
  | [] => [x]
  | y :: ys => if x.1 ≤ y.1 then x :: y :: ys else y :: insertByStart x ys

def sortByStart (l : List (Nat × Nat)) : List (Nat × Nat) :=
  l.foldr insertByStart []

/-- Modelled from the spec: the alignment rule of the allocator
(section 4.3) — computed starts are rounded up to the alignment
granularity, so each free range is reported starting at its first
aligned sector (ranges with no aligned sector are dropped). -/
def alignRanges (a : Nat) : List (Nat × Nat) → List (Nat × Nat)
  | [] => []
  | (s, len) :: rest =>
    let s2 := alignUp a s
    if s2 < s + len then (s2, s + len - s2) :: alignRanges a rest
    else alignRanges a rest

/-- Modelled from the spec: `find_free_sectors` over a table whose
occupied regions are the inclusive `(starting_lba, ending_lba)` ranges
in `used`, restricted to the usable window `[first, last]`. -/
def findFreeSectors (a first last : Nat) (used : List (Nat × Nat)) : List (Nat × Nat) :=
  alignRanges a (freeGaps first last (sortByStart used))

/-- Modelled from the spec: `find_first_place` (first-fit, section
4.3) — the first free range that accommodates the requested size,
placed at that range's (aligned) start. -/
def findFirstPlace (frees : List (Nat × Nat)) (size : Nat) : Option Nat :=
  match frees with
  | [] => none
  | (s, len) :: rest =>
    if size ≤ len then some s else findFirstPlace rest size

/-- Modelled from the spec: the GPT metadata reservation — the
protective MBR, the header sector and the 16384-byte entry array at
each end of the disk delimit the usable window. -/
def gptFirstUsable (ss : Nat) : Nat := 2 + 16384 / ss

def gptLastUsable (ss disk : Nat) : Nat := disk - 2 - 16384 / ss

def gptTableRanges (table : List (Nat × GPTPartitionEntry)) : List (Nat × Nat) :=
  table.map fun kv => (kv.2.starting_lba, kv.2.ending_lba)

/-- The free blocks seen by the GPT loop (src/device.rs line 352); the
alignment granularity was set to `1048576 / sector_size` at line 337. -/
def gptFreeSectors (ss disk : Nat) (table : List (Nat × GPTPartitionEntry)) :
    List (Nat × Nat) :=
  findFreeSectors (1048576 / ss) (gptFirstUsable ss) (gptLastUsable ss disk)
    (gptTableRanges table)

def mbrTableRanges (table : List (Nat × MBRPartitionEntry)) : List (Nat × Nat) :=
  table.map fun kv => (kv.2.starting_lba, kv.2.starting_lba + kv.2.sectors - 1)

/-- Modelled from the spec: the usable window of an MBR disk — all
sectors except sector 0 (the table itself); free ranges honor the same
1 MiB alignment rule (section 4.3). -/
def mbrFreeSectors (ss disk : Nat) (table : List (Nat × MBRPartitionEntry)) :
    List (Nat × Nat) :=
  findFreeSectors (1048576 / ss) 1 (disk - 1) (mbrTableRanges table)

/-- Size resolution of the GPT loop, src/device.rs lines 357-367. -/
def resolveSizeGpt (np ss lastLen : Nat) (p : PartitionSpec) : Except String Nat :=
  if p.size ≠ 0 then .ok p.size
  else if p.num ≠ np then .error "Max sized partition must stay at the end of the table."
  else if lastLen < 1048576 / ss then .error "Not enough free space to create a partition"
  else .ok (lastLen - 1)

/-- Start resolution of the GPT loop, src/device.rs lines 370-380. -/
def resolveStartGpt (ss : Nat) (frees : List (Nat × Nat)) (size : Nat)
    (p : PartitionSpec) : Except String Nat :=
  match p.start_sector with
  | some s => .ok s
  | none =>
    if p.num = 1 then .ok (1048576 / ss)
    else
      match findFirstPlace frees size with
      | some s => .ok s
      | none => .error "No suitable space found for partition."

structure GptState where
  table : List (Nat × GPTPartitionEntry)
  root_partnum : Nat
  root_partuuid : Uuid
deriving DecidableEq

/-- One iteration of the GPT per-partition loop, src/device.rs lines
346-409.  `rng i` is the `Uuid::new_v4()` of this iteration. -/
def gptStep (np ss disk : Nat) (rng : Nat → Uuid) (i : Nat) (st : GptState)
    (p : PartitionSpec) : Except String GptState :=
  if p.num = 0 then .error "Partition number must start from 1."
  else
    let u := rng i
    let frees := gptFreeSectors ss disk st.table
    match frees.getLast? with
    | none => .error "No more free space available for new partitions"
    | some lastFree =>
      match resolveSizeGpt np ss lastFree.2 p with
      | .error e => .error e
      | .ok size =>
        match p.part_type.to_uuid with
        | .error e => .error e
        | .ok tu =>
          match resolveStartGpt ss frees size p with
          | .error e => .error e
          | .ok start =>
            .ok { table := upsert p.num
                    ⟨tu.toBytesLe, u.toBytesLe, start, start + size - 1, 0,
                      p.label.getD ""⟩ st.table,
                  root_partnum :=
                    if p.usage = PartitionUsage.Rootfs then p.num else st.root_partnum,
                  root_partuuid :=
                    if p.usage = PartitionUsage.Rootfs then u else st.root_partuuid }

def gptLoop (np ss disk : Nat) (rng : Nat → Uuid) :
    Nat → GptState → List PartitionSpec → Except String GptState
  | _, st, [] => .ok st
  | i, st, p :: rest =>
    match gptStep np ss disk rng i st p with
    | .error e => .error e
    | .ok st2 => gptLoop np ss disk rng (i + 1) st2 rest

/-- struct PartitionMapData, src/device.rs lines 117-124 (the EFI/Boot
slots are always `None` and are omitted). -/
structure PartitionMapData where
  root_partnum : Nat
  root_partuuid : String
deriving DecidableEq

structure GptBuildResult where
  diskGuid : List Nat
  table : List (Nat × GPTPartitionEntry)
  pm : PartitionMapData
deriving DecidableEq

/-- `ImageContext::partition_gpt`, src/device.rs lines 307-426.  The
disk GUID is `rng 0`; iteration `k` of the loop draws `rng (k + 1)`.
The protective MBR, the table write and the flush (lines 414-416) are
the emitted `WriteEvent`s; they happen only after the loop finished. -/
def partition_gpt (d : DeviceSpec) (ss disk : Nat) (rng : Nat → Uuid) :
    List WriteEvent × Except String GptBuildResult :=
  match gptLoop d.num_partitions ss disk rng 1 ⟨[], 0, uuidNil⟩ d.partitions with
  | .error e => ([], .error e)
  | .ok st =>
    ([WriteEvent.ProtectiveMbr, WriteEvent.GptTable, WriteEvent.Flush],
     .ok ⟨(rng 0).toBytesLe, st.table, ⟨st.root_partnum, uuidToString st.root_partuuid⟩⟩)

/-- The sector-size clamp of the MBR builder, src/device.rs lines
430-432: a sector size that does not fit `u32` falls back to 512. -/
def mbrSectorSize (ssr : Nat) : Nat :=
  if ssr < 4294967296 then ssr else 512

/-- `random_id.to_le_bytes()`, src/device.rs line 434. -/
def leBytes4 (n : Nat) : List Nat :=
  [n % 256, n / 256 % 256, n / 65536 % 256, n / 16777216 % 256]

/-- Size resolution of the MBR loop, src/device.rs lines 458-467; an
explicit size must fit in `u32`. -/
def resolveSectorsMbr (np lastLen : Nat) (p : PartitionSpec) : Except String Nat :=
  if p.size ≠ 0 then
    if p.size < 4294967296 then .ok p.size
    else .error "Partition size exceeds the limit of MBR"
  else if p.num ≠ np then .error "Max sized partition must stay at the end of the table."
  else .ok (lastLen - 1)

/-- Start resolution of the MBR loop, src/device.rs lines 471-482; an
explicit start must fit in `u32`. -/
def resolveStartMbr (ss : Nat) (frees : List (Nat × Nat)) (sectors : Nat)
    (p : PartitionSpec) : Except String Nat :=
  match p.start_sector with
  | some s =>
    if s < 4294967296 then .ok s
    else .error "Partition size exceeds the limit of MBR"
  | none =>
    if p.num = 1 then .ok (1048576 / ss)
    else
      match findFirstPlace frees sectors with
      | some s => .ok s
      | none => .error "No suitable free space found for partition"

structure MbrState where
  table : List (Nat × MBRPartitionEntry)
  root_partnum : Nat
  root_partuuid : String
deriving DecidableEq

/-- One iteration of the MBR per-partition loop, src/device.rs lines
444-509.  `rid` is the u32 `random_id`. -/
def mbrStep (np ss disk rid : Nat) (st : MbrState) (p : PartitionSpec) :
    Except String MbrState :=
  if p.num = 0 then .error "Partition number must start from 1."
  else if 4 < p.num then .error "Extended and logical partitions are not supported."
  else
    let frees := mbrFreeSectors ss disk st.table
    match frees.getLast? with
    | none => .error "No more free space available for new partitions"
    | some lastFree =>
      match resolveSectorsMbr np lastFree.2 p with
      | .error e => .error e
      | .ok sectors =>
        if sectors < 1048576 / ss then
          .error "Not enough free space to create a partition"
        else
          match resolveStartMbr ss frees sectors p with
          | .error e => .error e
          | .ok start =>
            match p.part_type.to_byte with
            | .error e => .error e
            | .ok sys =>
              .ok { table := upsert p.num
                      ⟨decide (p.usage = PartitionUsage.Boot), sys, start, sectors⟩
                      st.table,
                    root_partnum :=
                      if p.usage = PartitionUsage.Rootfs then p.num else st.root_partnum,
                    root_partuuid :=
                      if p.usage = PartitionUsage.Rootfs then
                        hexStr 8 rid ++ "-" ++ hexStr 2 p.num
                      else st.root_partuuid }

def mbrLoop (np ss disk rid : Nat) :
    MbrState → List PartitionSpec → Except String MbrState
  | st, [] => .ok st
  | st, p :: rest =>
    match mbrStep np ss disk rid st p with
    | .error e => .error e
    | .ok st2 => mbrLoop np ss disk rid st2 rest

structure MbrBuildResult where
  diskSignature : List Nat
  table : List (Nat × MBRPartitionEntry)
  pm : PartitionMapData
deriving DecidableEq

/-- `ImageContext::partition_mbr`, src/device.rs lines 428-522.  The
table write and the flush (lines 511-512) are the emitted
`WriteEvent`s; they happen only after the loop finished. -/
def partition_mbr (d : DeviceSpec) (ssr disk rid : Nat) :
    List WriteEvent × Except String MbrBuildResult :=
  let ss := mbrSectorSize ssr
  match mbrLoop d.num_partitions ss disk rid ⟨[], 0, ""⟩ d.partitions with
  | .error e => ([], .error e)
  | .ok st =>
    ([WriteEvent.MbrTable, WriteEvent.Flush],
     .ok ⟨leBytes4 rid, st.table, ⟨st.root_partnum, st.root_partuuid⟩⟩)

instance [DecidableEq ε] [DecidableEq α] : DecidableEq (Except ε α)
  | .ok a, .ok b => decidable_of_iff (a = b) (by simp)
  | .error a, .error b => decidable_of_iff (a = b) (by simp)
  | .ok _, .error _ => isFalse (by simp)
  | .error _, .ok _ => isFalse (by simp)

/-! ## Result projections -/

def gptResTable (x : List WriteEvent × Except String GptBuildResult) :
    List (Nat × GPTPartitionEntry) :=
  match x.2 with
  | .ok r => r.table
  | .error _ => []

def gptResDiskGuid (x : List WriteEvent × Except String GptBuildResult) : List Nat :=
  match x.2 with
  | .ok r => r.diskGuid
  | .error _ => []

def mbrResTable (x : List WriteEvent × Except String MbrBuildResult) :
    List (Nat × MBRPartitionEntry) :=
  match x.2 with
  | .ok r => r.table
  | .error _ => []

def mbrResSig (x : List WriteEvent × Except String MbrBuildResult) : List Nat :=
  match x.2 with
  | .ok r => r.diskSignature
  | .error _ => []

def lookupPart (t : List (Nat × α)) (k : Nat) : Option α :=
  (t.find? fun kv => kv.1 == k).map Prod.snd

/-- Every entry stored under partition number 1 starts at sector `v`. -/
def gptKey1Starts (x : List WriteEvent × Except String GptBuildResult) (v : Nat) : Bool :=
  (gptResTable x).all fun kv => !(kv.1 == 1) || (kv.2.starting_lba == v)

/-- Every entry stored under partition number 1 starts at sector `v`. -/
def mbrKey1Starts (x : List WriteEvent × Except String MbrBuildResult) (v : Nat) : Bool :=
  (mbrResTable x).all fun kv => !(kv.1 == 1) || (kv.2.starting_lba == v)

/-! ## The validator postcondition

`checkCondB` states, as one boolean predicate, the exact conditions
under which `DeviceSpec.check` succeeds; `c1ClaimCond` states the
conditions exactly as claim C1 words them. -/

def labelOkB (pm : PartitionMapType) (p : PartitionSpec) : Bool :=
  match p.label with
  | none => true
  | some l => decide (pm ≠ PartitionMapType.MBR) && decide (l.utf8ByteSize ≤ 35)

def fsOkB (fsCheck : FilesystemType → Option String → Except String Unit)
    (p : PartitionSpec) : Bool :=
  match fsCheck p.filesystem p.fs_label with
  | .ok _ => true
  | .error _ => false

def scanCondB (fsCheck : FilesystemType → Option String → Except String Unit)
    (pm : PartitionMapType) : Nat → List PartitionSpec → Bool
  | _, [] => true
  | last, p :: rest =>
    decide (p.part_type ≠ PartitionType.Swap) && decide (last < p.num) &&
    labelOkB pm p && fsOkB fsCheck p && scanCondB fsCheck pm p.num rest

def countRootfs (l : List PartitionSpec) : Nat :=
  l.countP fun p => decide (p.usage = PartitionUsage.Rootfs)

def capacityOkB (d : DeviceSpec) : Bool :=
  match d.partition_map with
  | .MBR => decide (d.partitions.length ≤ 4)
  | .GPT => decide (d.partitions.length ≤ 128)

def identOkB (d : DeviceSpec) : Bool :=
  (identityStrings d).all fun s => isAsciiStr s && !containsForbidden s

def humanOkB (d : DeviceSpec) : Bool :=
  (humanStrings d).all fun s => !containsForbidden s

/-- The exact success condition of `DeviceSpec.check`: identity fields
ASCII and free of forbidden characters, human-facing fields free of
forbidden characters, a non-empty partition list whose length matches
`num_partitions` and respects the capacity of the partition map,
partition numbers nonzero and strictly increasing, no Swap partition,
label rules, filesystem-label checks, and exactly one Rootfs
partition. -/
def checkCondB (fsCheck : FilesystemType → Option String → Except String Unit)
    (d : DeviceSpec) : Bool :=
  identOkB d && humanOkB d && !d.partitions.isEmpty &&
  decide (d.num_partitions = d.partitions.length) && capacityOkB d &&
  scanCondB fsCheck d.partition_map 0 d.partitions &&
  decide (countRootfs d.partitions = 1)

def strictlyIncreasing : Nat → List PartitionSpec → Bool
  | _, [] => true
  | prev, p :: rest => decide (prev < p.num) && strictlyIncreasing p.num rest

/-- Partition numbers form a strictly increasing sequence starting at
1, read literally: the first declared number is 1 and the numbers
strictly increase. -/
def c1NumsB : List PartitionSpec → Bool
  | [] => true
  | p :: rest => decide (p.num = 1) && strictlyIncreasing p.num rest

def c1LabelOkB (pm : PartitionMapType) (p : PartitionSpec) : Bool :=
  match p.label with
  | none => true
  | some l => decide (pm ≠ PartitionMapType.MBR) && decide (l.length ≤ 35)

/-- The validator postcondition exactly as claim C1 words it:
partition count matches, exactly one Rootfs partition, no Swap type,
numbers strictly increasing starting at 1, no label under MBR and at
most 35 characters under GPT, identity fields pure ASCII without
forbidden characters, and name/model without forbidden characters. -/
def c1ClaimCond (d : DeviceSpec) : Bool :=
  decide (d.num_partitions = d.partitions.length) &&
  decide (countRootfs d.partitions = 1) &&
  d.partitions.all (fun p => decide (p.part_type ≠ PartitionType.Swap)) &&
  c1NumsB d.partitions &&
  d.partitions.all (c1LabelOkB d.partition_map) &&
  identOkB d && humanOkB d

/-! ## Shape projections for the determinism claim -/

/-- Forget the randomly drawn per-partition GUID. -/
def scrubGptEntry (e : GPTPartitionEntry) : GPTPartitionEntry :=
  { e with unique_partition_guid := [] }

def scrubGptTable (t : List (Nat × GPTPartitionEntry)) : List (Nat × GPTPartitionEntry) :=
  t.map fun kv => (kv.1, scrubGptEntry kv.2)

/-- Everything the GPT builder produces except the randomly drawn
identifiers: the write trace, the error (if any), the table with GUIDs
scrubbed and the root partition number. -/
def gptShape (x : List WriteEvent × Except String GptBuildResult) :
    List WriteEvent × Except String (List (Nat × GPTPartitionEntry) × Nat) :=
  (x.1, x.2.map fun r => (scrubGptTable r.table, r.pm.root_partnum))

/-- Everything the MBR builder produces except the random disk
signature and the identifier string derived from it. -/
def mbrShape (x : List WriteEvent × Except String MbrBuildResult) :
    List WriteEvent × Except String (List (Nat × MBRPartitionEntry) × Nat) :=
  (x.1, x.2.map fun r => (r.table, r.pm.root_partnum))

/-! ## Concrete instances -/

def mkPart (num size : Nat) (usage : PartitionUsage) (start : Option Nat) : PartitionSpec :=
  ⟨num, size, PartitionType.Linux, usage, start, none, none, FilesystemType.Ext4⟩

def mkDev (pm : PartitionMapType) (np : Nat) (parts : List PartitionSpec) : DeviceSpec :=
  ⟨"dev1", none, "vendor1", none, "Device One", none, pm, np, parts⟩

def uA : Uuid := ⟨1, 2, 3, 4, 5, 6, 7, 8, 9, 10, 11⟩

def uB : Uuid := ⟨255, 1, 2, 3, 4, 5, 6, 7, 8, 9, 16⟩

def rngA : Nat → Uuid := fun _ => uA

def rngB : Nat → Uuid := fun _ => uB

/-- A validator-accepted spec whose first partition number is 2. -/
def exC1 : DeviceSpec := mkDev PartitionMapType.GPT 1 [mkPart 2 0 PartitionUsage.Rootfs none]

/-- A validator-accepted GPT spec whose size-0 partition (number 3,
equal to `num_partitions`) is not the highest-numbered partition:
partition 4 is placed explicitly into space left over before it. -/
def exC2 : DeviceSpec := mkDev PartitionMapType.GPT 3
  [mkPart 1 2048 PartitionUsage.Other (some 4096),
   mkPart 3 0 PartitionUsage.Rootfs none,
   mkPart 4 1 PartitionUsage.Other (some 2048)]

/-- A validator-accepted spec with two size-0 partitions. -/
def exC5 : DeviceSpec := mkDev PartitionMapType.GPT 2
  [mkPart 1 0 PartitionUsage.Rootfs none, mkPart 2 0 PartitionUsage.Other none]

/-- A validator-accepted MBR spec declaring a 5th partition together
with an undersized first partition. -/
def exC6 : DeviceSpec := mkDev PartitionMapType.MBR 2
  [mkPart 1 100 PartitionUsage.Rootfs none, mkPart 5 4096 PartitionUsage.Other none]

/-- A well-formed GPT spec that builds successfully. -/
def exGptOk : DeviceSpec := mkDev PartitionMapType.GPT 2
  [mkPart 1 2048 PartitionUsage.Other none, mkPart 2 0 PartitionUsage.Rootfs none]

/-- A well-formed MBR spec that builds successfully. -/
def exMbrOk : DeviceSpec := mkDev PartitionMapType.MBR 2
  [mkPart 1 2048 PartitionUsage.Rootfs none, mkPart 2 0 PartitionUsage.Other none]

/-- A label of 12 characters whose UTF-8 encoding is 36 bytes. -/
def c10Label : String := "ああああああああああああ"

/-- A GPT spec whose only fault is a label longer than 35 bytes but
shorter than 35 characters. -/
def exC10 : DeviceSpec := mkDev PartitionMapType.GPT 1
  [⟨1, 0, PartitionType.Linux, PartitionUsage.Rootfs, none, some c10Label, none,
    FilesystemType.Ext4⟩]

/-- Two GPT loop states that agree on everything except the randomly
drawn identifiers. -/
def gptStRel (a b : GptState) : Prop :=
  scrubGptTable a.table = scrubGptTable b.table ∧ a.root_partnum = b.root_partnum

/-- Two MBR loop states that agree on everything except the identifier
string derived from the random disk signature. -/
def mbrStRel (a b : MbrState) : Prop :=
  a.table = b.table ∧ a.root_partnum = b.root_partnum

/-! ## Basic lemmas -/

theorem nat32_bytes (n : Nat) (h : n < 4294967296) :
    n % 256 + 256 * (n / 256 % 256) + 65536 * (n / 65536 % 256) +
      16777216 * (n / 16777216 % 256) = n := by
  have e1 : n / 65536 = n / 256 / 256 := by
    rw [Nat.div_div_eq_div_mul]
  have e2 : n / 16777216 = n / 256 / 256 / 256 := by
    rw [Nat.div_div_eq_div_mul, Nat.div_div_eq_div_mul]
  rw [e1, e2]
  omega

theorem decode_toBytesLe {u : Uuid} (h : u.WF) :
    decodeMixedEndian u.toBytesLe = some u := by
  obtain ⟨d1, d2, d3, b0, b1, b2, b3, b4, b5, b6, b7⟩ := u
  simp only [Uuid.WF] at h
  obtain ⟨h1, h2, h3, -, -, -, -, -, -, -, -⟩ := h
  simp only [Uuid.toBytesLe, decodeMixedEndian, Option.some.injEq, Uuid.mk.injEq]
  refine ⟨?_, ?_, ?_, ?_, ?_, ?_, ?_, ?_, ?_, ?_, ?_⟩ <;>
    first
      | trivial
      | exact nat32_bytes d1 h1
      | omega

theorem toBytesLe_inj {u v : Uuid} (hu : u.WF) (hv : v.WF)
    (h : u.toBytesLe = v.toBytesLe) : u = v := by
  have h1 := decode_toBytesLe hu
  have h2 := decode_toBytesLe hv
  rw [h] at h1
  exact Option.some.inj (h1.symm.trans h2)

theorem mem_upsert {k : Nat} {v : α} {t : List (Nat × α)} {kv : Nat × α}
    (h : kv ∈ upsert k v t) : kv = (k, v) ∨ kv ∈ t := by
  induction t with
  | nil => simpa [upsert] using h
  | cons y ys ih =>
    obtain ⟨k2, v2⟩ := y
    by_cases hk : k = k2
    · simp only [upsert, if_pos hk, List.mem_cons] at h
      rcases h with h | h
      · exact Or.inl h
      · exact Or.inr (List.mem_cons_of_mem _ h)
    · simp only [upsert, if_neg hk, List.mem_cons] at h
      rcases h with h | h
      · exact Or.inr (h ▸ List.mem_cons_self _ _)
      · rcases ih h with h2 | h2
        · exact Or.inl h2
        · exact Or.inr (List.mem_cons_of_mem _ h2)

theorem lookupPart_upsert (k : Nat) (v : α) (t : List (Nat × α)) :
    lookupPart (upsert k v t) k = some v := by
  induction t with
  | nil => simp [upsert, lookupPart]
  | cons y ys ih =>
    obtain ⟨k2, v2⟩ := y
    by_cases hk : k = k2
    · simp [upsert, if_pos hk, lookupPart]
    · have hbeq : (k2 == k) = false := beq_eq_false_iff_ne.mpr fun hh => hk hh.symm
      simp only [upsert, if_neg hk]
      simpa [lookupPart, List.find?, hbeq] using ih

theorem checkEach_ok_iff (f : α → Except String Unit) (l : List α) :
    checkEach f l = .ok () ↔ ∀ x ∈ l, f x = .ok () := by
  induction l with
  | nil => simp [checkEach]
  | cons x xs ih =>
    simp only [checkEach, List.forall_mem_cons]
    cases hfx : f x with
    | error e => simp [hfx]
    | ok u => cases u; simp [hfx, ih]

theorem identCheck_ok_iff (s : String) :
    identCheck s = .ok () ↔ (isAsciiStr s && !containsForbidden s) = true := by
  unfold identCheck
  split_ifs with h1 h2 <;> simp_all

theorem nameCheck_ok_iff (s : String) :
    nameCheck s = .ok () ↔ (!containsForbidden s) = true := by
  unfold nameCheck
  split_ifs with h1 <;> simp_all

theorem labelCheck_ok_iff (pm : PartitionMapType) (p : PartitionSpec) :
    labelCheck pm p = .ok () ↔ labelOkB pm p = true := by
  unfold labelCheck labelOkB
  cases p.label with
  | none => simp
  | some l => split_ifs <;> simp_all

theorem fsOkB_iff (fsCheck : FilesystemType → Option String → Except String Unit)
    (p : PartitionSpec) :
    fsOkB fsCheck p = true ↔ fsCheck p.filesystem p.fs_label = .ok () := by
  unfold fsOkB
  cases h : fsCheck p.filesystem p.fs_label with
  | error e => simp
  | ok u => cases u; simp

theorem bool_false_of_error {e : String} {x : Except String Unit} {b : Bool}
    (hiff : x = .ok () ↔ b = true) (h : x = .error e) : b = false := by
  cases b
  · rfl
  · exact absurd (hiff.mpr rfl) (by simp [h])

theorem capacityCheck_ok_iff (d : DeviceSpec) :
    capacityCheck d = .ok () ↔ capacityOkB d = true := by
  unfold capacityCheck capacityOkB
  cases d.partition_map <;> split_ifs with h <;> simp_all

theorem identStrings_ok_iff (d : DeviceSpec) :
    checkEach identCheck (identityStrings d) = .ok () ↔ identOkB d = true := by
  rw [checkEach_ok_iff]
  unfold identOkB
  rw [List.all_eq_true]
  exact forall_congr' fun s => forall_congr' fun _ => identCheck_ok_iff s

theorem humanStrings_ok_iff (d : DeviceSpec) :
    checkEach nameCheck (humanStrings d) = .ok () ↔ humanOkB d = true := by
  rw [checkEach_ok_iff]
  unfold humanOkB
  rw [List.all_eq_true]
  exact forall_congr' fun s => forall_congr' fun _ => nameCheck_ok_iff s

theorem partScan_ok_iff (fsCheck : FilesystemType → Option String → Except String Unit)
    (pm : PartitionMapType) (l : List PartitionSpec) :
    ∀ (root : Option PartitionSpec) (last : Nat),
    (∃ r, partScan fsCheck pm root last l = .ok r ∧ r.isSome = true) ↔
    (scanCondB fsCheck pm last l = true ∧
      countRootfs l + (if root.isSome then 1 else 0) = 1) := by
  induction l with
  | nil =>
    intro root last
    cases root <;> simp [partScan, scanCondB, countRootfs]
  | cons p rest ih =>
    intro root last
    by_cases hswap : p.part_type = PartitionType.Swap
    · simp [partScan, scanCondB, hswap]
    · by_cases h0 : p.num = 0
      · have hnlt : ¬ last < p.num := by omega
        simp [partScan, scanCondB, hswap, h0, hnlt]
      · by_cases hlt : p.num < last
        · have hnlt : ¬ last < p.num := by omega
          simp [partScan, scanCondB, hswap, h0, hlt, hnlt]
        · by_cases heq : p.num = last
          · have hnlt : ¬ last < p.num := by omega
            simp only [partScan, if_neg hswap, if_neg h0, if_neg hlt, if_pos heq]
            constructor
            · rintro ⟨r, hr, -⟩
              cases hr
            · rintro ⟨hc, -⟩
              exfalso
              simp only [scanCondB, Bool.and_eq_true, decide_eq_true_eq] at hc
              omega
          · have hgt : last < p.num := by omega
            by_cases hdup : p.usage = PartitionUsage.Rootfs ∧ root.isSome
            · simp only [partScan, if_neg hswap, if_neg h0, if_neg hlt, if_neg heq,
                if_pos hdup]
              obtain ⟨hrf, hsome⟩ := hdup
              constructor
              · rintro ⟨r, hr, -⟩
                cases hr
              · rintro ⟨-, hcnt⟩
                simp [countRootfs, List.countP_cons, hrf, hsome] at hcnt
            · simp only [partScan, if_neg hswap, if_neg h0, if_neg hlt, if_neg heq,
                if_neg hdup]
              cases hl : labelCheck pm p with
              | error e =>
                have hlb : labelOkB pm p = false :=
                  bool_false_of_error (labelCheck_ok_iff pm p) hl
                simp [scanCondB, hlb]
              | ok u =>
                cases u
                have hlb : labelOkB pm p = true := (labelCheck_ok_iff pm p).mp hl
                cases hf : fsCheck p.filesystem p.fs_label with
                | error e2 =>
                  have hfb : fsOkB fsCheck p = false :=
                    bool_false_of_error (fsOkB_iff fsCheck p).symm hf
                  simp [scanCondB, hfb]
                | ok u2 =>
                  cases u2
                  have hfb : fsOkB fsCheck p = true := (fsOkB_iff fsCheck p).mpr hf
                  rw [ih]
                  simp only [scanCondB, hlb, hfb, Bool.and_true, Bool.true_and,
                    decide_eq_true_eq, Bool.and_eq_true, countRootfs, List.countP_cons]
                  by_cases hrf : p.usage = PartitionUsage.Rootfs
                  · have hroot : root = none := by
                      cases root with
                      | none => rfl
                      | some q => exact absurd ⟨hrf, rfl⟩ hdup
                    subst hroot
                    simp [hrf, hgt, hswap, countRootfs]
                  · simp only [if_neg hrf, hrf]
                    simp [hgt, hswap, countRootfs]

theorem check_ok_iff (fsCheck : FilesystemType → Option String → Except String Unit)
    (d : DeviceSpec) :
    DeviceSpec.check fsCheck d = .ok () ↔ checkCondB fsCheck d = true := by
  unfold DeviceSpec.check checkCondB
  cases hid : checkEach identCheck (identityStrings d) with
  | error e =>
    have hb : identOkB d = false := bool_false_of_error (identStrings_ok_iff d) hid
    simp [hb]
  | ok u =>
    cases u
    have hidb : identOkB d = true := (identStrings_ok_iff d).mp hid
    cases hname : checkEach nameCheck (humanStrings d) with
    | error e =>
      have hb : humanOkB d = false := bool_false_of_error (humanStrings_ok_iff d) hname
      simp [hb]
    | ok u2 =>
      cases u2
      have hnb : humanOkB d = true := (humanStrings_ok_iff d).mp hname
      by_cases hemp : d.partitions.isEmpty
      · simp [hemp, hidb, hnb]
      · by_cases hnum : d.num_partitions ≠ d.partitions.length
        · simp [hemp, hnum, hidb, hnb]
        · have hnum2 : d.num_partitions = d.partitions.length := not_not.mp hnum
          cases hcap : capacityCheck d with
          | error e =>
            have hb : capacityOkB d = false :=
              bool_false_of_error (capacityCheck_ok_iff d) hcap
            simp [hemp, hnum, hb]
          | ok u3 =>
            cases u3
            have hcapb : capacityOkB d = true := (capacityCheck_ok_iff d).mp hcap
            have hscan := partScan_ok_iff fsCheck d.partition_map d.partitions none 0
            simp only [Option.isSome_none, Bool.false_eq_true, if_false, Nat.add_zero]
              at hscan
            simp only [hemp, hnum, hidb, hnb, hcapb, Bool.true_and, Bool.not_false,
              if_neg hemp, if_neg hnum]
            cases hps : partScan fsCheck d.partition_map none 0 d.partitions with
            | error e =>
              have hno : ¬ (scanCondB fsCheck d.partition_map 0 d.partitions = true ∧
                  countRootfs d.partitions = 1) := by
                rw [← hscan]
                rintro ⟨r, hr, -⟩
                rw [hps] at hr
                cases hr
              constructor
              · intro h
                cases h
              · intro h
                exact absurd ⟨(by simp_all : scanCondB fsCheck d.partition_map 0
                    d.partitions = true), (by simp_all : countRootfs d.partitions = 1)⟩ hno
            | ok r =>
              cases r with
              | none =>
                have hno : ¬ (scanCondB fsCheck d.partition_map 0 d.partitions = true ∧
                    countRootfs d.partitions = 1) := by
                  rw [← hscan]
                  rintro ⟨r2, hr, hs⟩
                  rw [hps] at hr
                  cases hr
                  cases hs
                constructor
                · intro h
                  cases h
                · intro h
                  exact absurd ⟨(by simp_all : scanCondB fsCheck d.partition_map 0
                      d.partitions = true), (by simp_all : countRootfs d.partitions = 1)⟩ hno
              | some q =>
                have hyes : scanCondB fsCheck d.partition_map 0 d.partitions = true ∧
                    countRootfs d.partitions = 1 := by
                  rw [← hscan]
                  exact ⟨some q, hps, rfl⟩
                simp [hyes.1, hyes.2, hnum2]

/-! ## Inversion lemmas for the builder loops -/

theorem gptStep_ok_inv {np ss disk : Nat} {rng : Nat → Uuid} {i : Nat} {st : GptState}
    {p : PartitionSpec} {st2 : GptState}
    (h : gptStep np ss disk rng i st p = .ok st2) :
    p.num ≠ 0 ∧
    ∃ lf size tu start,
      (gptFreeSectors ss disk st.table).getLast? = some lf ∧
      resolveSizeGpt np ss lf.2 p = .ok size ∧
      p.part_type.to_uuid = .ok tu ∧
      resolveStartGpt ss (gptFreeSectors ss disk st.table) size p = .ok start ∧
      st2 = { table := upsert p.num ⟨tu.toBytesLe, (rng i).toBytesLe, start,
                start + size - 1, 0, p.label.getD ""⟩ st.table,
              root_partnum := if p.usage = PartitionUsage.Rootfs then p.num
                else st.root_partnum,
              root_partuuid := if p.usage = PartitionUsage.Rootfs then rng i
                else st.root_partuuid } := by
  by_cases h0 : p.num = 0
  · simp only [gptStep, if_pos h0] at h
    cases h
  · simp only [gptStep, if_neg h0] at h
    refine ⟨h0, ?_⟩
    cases hlf : (gptFreeSectors ss disk st.table).getLast? with
    | none => simp only [hlf] at h; cases h
    | some lf =>
      simp only [hlf] at h
      cases hsz : resolveSizeGpt np ss lf.2 p with
      | error e => simp only [hsz] at h; cases h
      | ok size =>
        simp only [hsz] at h
        cases htu : p.part_type.to_uuid with
        | error e => simp only [htu] at h; cases h
        | ok tu =>
          simp only [htu] at h
          cases hst : resolveStartGpt ss (gptFreeSectors ss disk st.table) size p with
          | error e => simp only [hst] at h; cases h
          | ok start =>
            simp only [hst, Except.ok.injEq] at h
            exact ⟨lf, size, tu, start, rfl, hsz, rfl, hst, h.symm⟩

theorem mbrStep_ok_inv {np ss disk rid : Nat} {st : MbrState}
    {p : PartitionSpec} {st2 : MbrState}
    (h : mbrStep np ss disk rid st p = .ok st2) :
    p.num ≠ 0 ∧ p.num ≤ 4 ∧
    ∃ lf sectors start sys,
      (mbrFreeSectors ss disk st.table).getLast? = some lf ∧
      resolveSectorsMbr np lf.2 p = .ok sectors ∧
      1048576 / ss ≤ sectors ∧
      resolveStartMbr ss (mbrFreeSectors ss disk st.table) sectors p = .ok start ∧
      p.part_type.to_byte = .ok sys ∧
      st2 = { table := upsert p.num
                ⟨decide (p.usage = PartitionUsage.Boot), sys, start, sectors⟩ st.table,
              root_partnum := if p.usage = PartitionUsage.Rootfs then p.num
                else st.root_partnum,
              root_partuuid := if p.usage = PartitionUsage.Rootfs then
                  hexStr 8 rid ++ "-" ++ hexStr 2 p.num
                else st.root_partuuid } := by
  by_cases h0 : p.num = 0
  · simp only [mbrStep, if_pos h0] at h
    cases h
  · by_cases h4 : 4 < p.num
    · simp only [mbrStep, if_neg h0, if_pos h4] at h
      cases h
    · simp only [mbrStep, if_neg h0, if_neg h4] at h
      refine ⟨h0, by omega, ?_⟩
      cases hlf : (mbrFreeSectors ss disk st.table).getLast? with
      | none => simp only [hlf] at h; cases h
      | some lf =>
        simp only [hlf] at h
        cases hsec : resolveSectorsMbr np lf.2 p with
        | error e => simp only [hsec] at h; cases h
        | ok sectors =>
          simp only [hsec] at h
          by_cases hmin : sectors < 1048576 / ss
          · simp only [if_pos hmin] at h
            cases h
          · simp only [if_neg hmin] at h
            cases hst : resolveStartMbr ss (mbrFreeSectors ss disk st.table) sectors p with
            | error e => simp only [hst] at h; cases h
            | ok start =>
              simp only [hst] at h
              cases hsys : p.part_type.to_byte with
              | error e => simp only [hsys] at h; cases h
              | ok sys =>
                simp only [hsys, Except.ok.injEq] at h
                exact ⟨lf, sectors, start, sys, rfl, hsec, by omega, hst, rfl, h.symm⟩

/-! ## Loop lemmas -/

theorem gptLoop_ok_of_mem {np ss disk : Nat} {rng : Nat → Uuid}
    {l : List PartitionSpec} :
    ∀ {i : Nat} {st st' : GptState}, gptLoop np ss disk rng i st l = .ok st' →
    ∀ p ∈ l, ∃ j st1 st2, gptStep np ss disk rng j st1 p = .ok st2 := by
  induction l with
  | nil =>
    intro i st st' h p hp
    cases hp
  | cons q rest ih =>
    intro i st st' h p hp
    unfold gptLoop at h
    cases hstep : gptStep np ss disk rng i st q with
    | error e => rw [hstep] at h; cases h
    | ok st2 =>
      rw [hstep] at h
      rcases List.mem_cons.mp hp with rfl | hp2
      · exact ⟨i, st, st2, hstep⟩
      · exact ih h p hp2

theorem mbrLoop_ok_of_mem {np ss disk rid : Nat} {l : List PartitionSpec} :
    ∀ {st st' : MbrState}, mbrLoop np ss disk rid st l = .ok st' →
    ∀ p ∈ l, ∃ st1 st2, mbrStep np ss disk rid st1 p = .ok st2 := by
  induction l with
  | nil =>
    intro st st' h p hp
    cases hp
  | cons q rest ih =>
    intro st st' h p hp
    unfold mbrLoop at h
    cases hstep : mbrStep np ss disk rid st q with
    | error e => rw [hstep] at h; cases h
    | ok st2 =>
      rw [hstep] at h
      rcases List.mem_cons.mp hp with rfl | hp2
      · exact ⟨st, st2, hstep⟩
      · exact ih h p hp2

theorem gptLoop_inv (Q : Nat × GPTPartitionEntry → Prop) {np ss disk : Nat}
    {rng : Nat → Uuid} {l : List PartitionSpec}
    (hstep : ∀ j st1 st2, ∀ p ∈ l, gptStep np ss disk rng j st1 p = .ok st2 →
      (∀ kv ∈ st1.table, Q kv) → ∀ kv ∈ st2.table, Q kv) :
    ∀ {i : Nat} {st st' : GptState}, gptLoop np ss disk rng i st l = .ok st' →
    (∀ kv ∈ st.table, Q kv) → ∀ kv ∈ st'.table, Q kv := by
  induction l with
  | nil =>
    intro i st st' h hQ
    unfold gptLoop at h
    injection h with h2
    subst h2
    exact hQ
  | cons q rest ih =>
    intro i st st' h hQ
    unfold gptLoop at h
    cases hstep2 : gptStep np ss disk rng i st q with
    | error e => rw [hstep2] at h; cases h
    | ok st2 =>
      rw [hstep2] at h
      exact ih (fun j s1 s2 p hp => hstep j s1 s2 p (List.mem_cons_of_mem _ hp)) h
        (hstep i st st2 q (List.mem_cons_self _ _) hstep2 hQ)

theorem mbrLoop_inv (Q : Nat × MBRPartitionEntry → Prop) {np ss disk rid : Nat}
    {l : List PartitionSpec}
    (hstep : ∀ st1 st2, ∀ p ∈ l, mbrStep np ss disk rid st1 p = .ok st2 →
      (∀ kv ∈ st1.table, Q kv) → ∀ kv ∈ st2.table, Q kv) :
    ∀ {st st' : MbrState}, mbrLoop np ss disk rid st l = .ok st' →
    (∀ kv ∈ st.table, Q kv) → ∀ kv ∈ st'.table, Q kv := by
  induction l with
  | nil =>
    intro st st' h hQ
    unfold mbrLoop at h
    injection h with h2
    subst h2
    exact hQ
  | cons q rest ih =>
    intro st st' h hQ
    unfold mbrLoop at h
    cases hstep2 : mbrStep np ss disk rid st q with
    | error e => rw [hstep2] at h; cases h
    | ok st2 =>
      rw [hstep2] at h
      exact ih (fun s1 s2 p hp => hstep s1 s2 p (List.mem_cons_of_mem _ hp)) h
        (hstep st st2 q (List.mem_cons_self _ _) hstep2 hQ)

/-! ## Builder plumbing -/

theorem partition_gpt_ok_inv {d : DeviceSpec} {ss disk : Nat} {rng : Nat → Uuid}
    (h : (partition_gpt d ss disk rng).2.isOk = true) :
    ∃ st, gptLoop d.num_partitions ss disk rng 1 ⟨[], 0, uuidNil⟩ d.partitions = .ok st ∧
      partition_gpt d ss disk rng =
        ([WriteEvent.ProtectiveMbr, WriteEvent.GptTable, WriteEvent.Flush],
         .ok ⟨(rng 0).toBytesLe, st.table, ⟨st.root_partnum,
           uuidToString st.root_partuuid⟩⟩) := by
  simp only [partition_gpt] at h ⊢
  cases hl : gptLoop d.num_partitions ss disk rng 1 ⟨[], 0, uuidNil⟩ d.partitions with
  | error e =>
    rw [hl] at h
    simp [Except.isOk, Except.toBool] at h
  | ok st => exact ⟨st, rfl, rfl⟩

theorem partition_mbr_ok_inv {d : DeviceSpec} {ssr disk rid : Nat}
    (h : (partition_mbr d ssr disk rid).2.isOk = true) :
    ∃ st, mbrLoop d.num_partitions (mbrSectorSize ssr) disk rid ⟨[], 0, ""⟩
        d.partitions = .ok st ∧
      partition_mbr d ssr disk rid =
        ([WriteEvent.MbrTable, WriteEvent.Flush],
         .ok ⟨leBytes4 rid, st.table, ⟨st.root_partnum, st.root_partuuid⟩⟩) := by
  simp only [partition_mbr] at h ⊢
  cases hl : mbrLoop d.num_partitions (mbrSectorSize ssr) disk rid ⟨[], 0, ""⟩
      d.partitions with
  | error e =>
    rw [hl] at h
    simp [Except.isOk, Except.toBool] at h
  | ok st => exact ⟨st, rfl, rfl⟩

theorem gpt_writes (d : DeviceSpec) (ss disk : Nat) (rng : Nat → Uuid) :
    ((partition_gpt d ss disk rng).2.isOk = false → (partition_gpt d ss disk rng).1 = []) ∧
    ((partition_gpt d ss disk rng).2.isOk = true →
      (partition_gpt d ss disk rng).1 =
        [WriteEvent.ProtectiveMbr, WriteEvent.GptTable, WriteEvent.Flush]) := by
  unfold partition_gpt
  cases gptLoop d.num_partitions ss disk rng 1 ⟨[], 0, uuidNil⟩ d.partitions <;>
    simp [Except.isOk, Except.toBool]

theorem mbr_writes (d : DeviceSpec) (ssr disk rid : Nat) :
    ((partition_mbr d ssr disk rid).2.isOk = false → (partition_mbr d ssr disk rid).1 = []) ∧
    ((partition_mbr d ssr disk rid).2.isOk = true →
      (partition_mbr d ssr disk rid).1 = [WriteEvent.MbrTable, WriteEvent.Flush]) := by
  simp only [partition_mbr]
  cases mbrLoop d.num_partitions (mbrSectorSize ssr) disk rid ⟨[], 0, ""⟩ d.partitions <;>
    simp [Except.isOk, Except.toBool]

/-! ## Per-step consequences -/

theorem gptStep_size0_num {np ss disk : Nat} {rng : Nat → Uuid} {i : Nat}
    {st : GptState} {p : PartitionSpec} {st2 : GptState}
    (h : gptStep np ss disk rng i st p = .ok st2) (h0 : p.size = 0) : p.num = np := by
  obtain ⟨-, lf, size, tu, start, -, hsz, -, -, -⟩ := gptStep_ok_inv h
  unfold resolveSizeGpt at hsz
  rw [if_neg (not_not_intro h0)] at hsz
  by_cases hnp : p.num ≠ np
  · rw [if_pos hnp] at hsz
    cases hsz
  · exact not_not.mp hnp

theorem mbrStep_size0_num {np ss disk rid : Nat} {st : MbrState} {p : PartitionSpec}
    {st2 : MbrState}
    (h : mbrStep np ss disk rid st p = .ok st2) (h0 : p.size = 0) : p.num = np := by
  obtain ⟨-, -, lf, sectors, start, sys, -, hsec, -, -, -, -⟩ := mbrStep_ok_inv h
  unfold resolveSectorsMbr at hsec
  rw [if_neg (not_not_intro h0)] at hsec
  by_cases hnp : p.num ≠ np
  · rw [if_pos hnp] at hsec
    cases hsec
  · exact not_not.mp hnp

theorem mbrStep_explicit_min {np ss disk rid : Nat} {st : MbrState} {p : PartitionSpec}
    {st2 : MbrState}
    (h : mbrStep np ss disk rid st p = .ok st2) (h0 : p.size ≠ 0) :
    1048576 / ss ≤ p.size := by
  obtain ⟨-, -, lf, sectors, start, sys, -, hsec, hmin, -, -, -⟩ := mbrStep_ok_inv h
  unfold resolveSectorsMbr at hsec
  rw [if_pos h0] at hsec
  split_ifs at hsec with hb
  injection hsec with hh
  omega

theorem gptStep_size0_resolved {np ss disk : Nat} {rng : Nat → Uuid} {i : Nat}
    {st : GptState} {p : PartitionSpec} {st2 : GptState}
    (h : gptStep np ss disk rng i st p = .ok st2) (h0 : p.size = 0) :
    ∃ lf, (gptFreeSectors ss disk st.table).getLast? = some lf ∧
      resolveSizeGpt np ss lf.2 p = .ok (lf.2 - 1) ∧
      ∃ e, lookupPart st2.table p.num = some e ∧
        e.ending_lba = e.starting_lba + (lf.2 - 1) - 1 := by
  obtain ⟨-, lf, size, tu, start, hlf, hsz, htu, hst, rfl⟩ := gptStep_ok_inv h
  have hsize : size = lf.2 - 1 := by
    unfold resolveSizeGpt at hsz
    rw [if_neg (not_not_intro h0)] at hsz
    split_ifs at hsz
    injection hsz with hh
    exact hh.symm
  subst hsize
  exact ⟨lf, hlf, hsz, _, lookupPart_upsert _ _ _, rfl⟩

theorem mbrStep_size0_resolved {np ss disk rid : Nat} {st : MbrState}
    {p : PartitionSpec} {st2 : MbrState}
    (h : mbrStep np ss disk rid st p = .ok st2) (h0 : p.size = 0) :
    ∃ lf, (mbrFreeSectors ss disk st.table).getLast? = some lf ∧
      resolveSectorsMbr np lf.2 p = .ok (lf.2 - 1) ∧
      ∃ e, lookupPart st2.table p.num = some e ∧ e.sectors = lf.2 - 1 := by
  obtain ⟨-, -, lf, sectors, start, sys, hlf, hsec, hmin, hst, hsys, rfl⟩ :=
    mbrStep_ok_inv h
  have hsize : sectors = lf.2 - 1 := by
    unfold resolveSectorsMbr at hsec
    rw [if_neg (not_not_intro h0)] at hsec
    split_ifs at hsec
    injection hsec with hh
    exact hh.symm
  subst hsize
  exact ⟨lf, hlf, hsec, _, lookupPart_upsert _ _ _, rfl⟩

/-! ## Table invariants -/

theorem gptLoop_guid {np ss disk : Nat} {rng : Nat → Uuid} {l : List PartitionSpec}
    {i : Nat} {st st' : GptState} (h : gptLoop np ss disk rng i st l = .ok st')
    (hQ : ∀ kv ∈ st.table, ∃ j, (kv : Nat × GPTPartitionEntry).2.unique_partition_guid =
      (rng j).toBytesLe) :
    ∀ kv ∈ st'.table, ∃ j, kv.2.unique_partition_guid = (rng j).toBytesLe := by
  refine gptLoop_inv _ ?_ h hQ
  intro j st1 st2 p hp hstep hQ1 kv hkv
  obtain ⟨-, lf, size, tu, start, -, -, -, -, rfl⟩ := gptStep_ok_inv hstep
  rcases mem_upsert hkv with rfl | hkv2
  · exact ⟨j, rfl⟩
  · exact hQ1 kv hkv2

theorem gptLoop_key1 {np ss disk : Nat} {rng : Nat → Uuid} {l : List PartitionSpec}
    (hl : ∀ p ∈ l, p.num = 1 → p.start_sector = none) {i : Nat} {st st' : GptState}
    (h : gptLoop np ss disk rng i st l = .ok st')
    (hQ : ∀ kv ∈ st.table, (kv : Nat × GPTPartitionEntry).1 = 1 →
      kv.2.starting_lba = 1048576 / ss) :
    ∀ kv ∈ st'.table, kv.1 = 1 → kv.2.starting_lba = 1048576 / ss := by
  refine gptLoop_inv _ ?_ h hQ
  intro j st1 st2 p hp hstep hQ1 kv hkv
  obtain ⟨-, lf, size, tu, start, -, -, -, hstart, rfl⟩ := gptStep_ok_inv hstep
  rcases mem_upsert hkv with rfl | hkv2
  · intro hk1
    have hk1 : p.num = 1 := hk1
    have hnone := hl p hp hk1
    unfold resolveStartGpt at hstart
    rw [hnone] at hstart
    rw [if_pos hk1] at hstart
    injection hstart with hh
    exact hh.symm
  · exact hQ1 kv hkv2

theorem mbrLoop_key1 {np ss disk rid : Nat} {l : List PartitionSpec}
    (hl : ∀ p ∈ l, p.num = 1 → p.start_sector = none) {st st' : MbrState}
    (h : mbrLoop np ss disk rid st l = .ok st')
    (hQ : ∀ kv ∈ st.table, (kv : Nat × MBRPartitionEntry).1 = 1 →
      kv.2.starting_lba = 1048576 / ss) :
    ∀ kv ∈ st'.table, kv.1 = 1 → kv.2.starting_lba = 1048576 / ss := by
  refine mbrLoop_inv _ ?_ h hQ
  intro st1 st2 p hp hstep hQ1 kv hkv
  obtain ⟨-, -, lf, sectors, start, sys, -, -, -, hstart, -, rfl⟩ := mbrStep_ok_inv hstep
  rcases mem_upsert hkv with rfl | hkv2
  · intro hk1
    have hk1 : p.num = 1 := hk1
    have hnone := hl p hp hk1
    unfold resolveStartMbr at hstart
    rw [hnone] at hstart
    rw [if_pos hk1] at hstart
    injection hstart with hh
    exact hh.symm
  · exact hQ1 kv hkv2

theorem mbrLoop_sectors_min {np ss disk rid : Nat} {l : List PartitionSpec}
    {st st' : MbrState} (h : mbrLoop np ss disk rid st l = .ok st')
    (hQ : ∀ kv ∈ st.table, 1048576 / ss ≤ (kv : Nat × MBRPartitionEntry).2.sectors) :
    ∀ kv ∈ st'.table, 1048576 / ss ≤ kv.2.sectors := by
  refine mbrLoop_inv _ ?_ h hQ
  intro st1 st2 p hp hstep hQ1 kv hkv
  obtain ⟨-, -, lf, sectors, start, sys, -, -, hmin, -, -, rfl⟩ := mbrStep_ok_inv hstep
  rcases mem_upsert hkv with rfl | hkv2
  · exact hmin
  · exact hQ1 kv hkv2

/-! ## Determinism of the layout -/

theorem upsert_map (g : α → β) (k : Nat) (v : α) (t : List (Nat × α)) :
    (upsert k v t).map (fun kv => (kv.1, g kv.2)) =
      upsert k (g v) (t.map fun kv => (kv.1, g kv.2)) := by
  induction t with
  | nil => rfl
  | cons y ys ih =>
    obtain ⟨k2, v2⟩ := y
    by_cases hk : k = k2
    · simp [upsert, if_pos hk]
    · simp [upsert, if_neg hk, ih]

theorem scrubGptTable_upsert (k : Nat) (v : GPTPartitionEntry)
    (t : List (Nat × GPTPartitionEntry)) :
    scrubGptTable (upsert k v t) = upsert k (scrubGptEntry v) (scrubGptTable t) :=
  upsert_map scrubGptEntry k v t

theorem gptTableRanges_scrub (t : List (Nat × GPTPartitionEntry)) :
    gptTableRanges t =
      (scrubGptTable t).map fun kv => (kv.2.starting_lba, kv.2.ending_lba) := by
  simp only [gptTableRanges, scrubGptTable, List.map_map]
  rfl

theorem gptStep_det {np ss disk : Nat} {rng1 rng2 : Nat → Uuid} {i j : Nat}
    {st1 st2 : GptState} (hR : gptStRel st1 st2) (p : PartitionSpec) :
    (∃ e, gptStep np ss disk rng1 i st1 p = .error e ∧
          gptStep np ss disk rng2 j st2 p = .error e) ∨
    (∃ s1 s2, gptStep np ss disk rng1 i st1 p = .ok s1 ∧
              gptStep np ss disk rng2 j st2 p = .ok s2 ∧ gptStRel s1 s2) := by
  obtain ⟨hT, hN⟩ := hR
  have hfr : gptFreeSectors ss disk st1.table = gptFreeSectors ss disk st2.table := by
    unfold gptFreeSectors
    rw [gptTableRanges_scrub st1.table, gptTableRanges_scrub st2.table, hT]
  by_cases h0 : p.num = 0
  · exact Or.inl ⟨"Partition number must start from 1.", by simp [gptStep, if_pos h0],
      by simp [gptStep, if_pos h0]⟩
  · cases hlf : (gptFreeSectors ss disk st2.table).getLast? with
    | none =>
      refine Or.inl ⟨"No more free space available for new partitions", ?_, ?_⟩
      · simp [gptStep, if_neg h0, hfr, hlf]
      · simp [gptStep, if_neg h0, hlf]
    | some lf =>
      cases hsz : resolveSizeGpt np ss lf.2 p with
      | error e =>
        refine Or.inl ⟨e, ?_, ?_⟩
        · simp [gptStep, if_neg h0, hfr, hlf, hsz]
        · simp [gptStep, if_neg h0, hlf, hsz]
      | ok size =>
        cases htu : p.part_type.to_uuid with
        | error e =>
          refine Or.inl ⟨e, ?_, ?_⟩
          · simp [gptStep, if_neg h0, hfr, hlf, hsz, htu]
          · simp [gptStep, if_neg h0, hlf, hsz, htu]
        | ok tu =>
          cases hst : resolveStartGpt ss (gptFreeSectors ss disk st2.table) size p with
          | error e =>
            refine Or.inl ⟨e, ?_, ?_⟩
            · simp [gptStep, if_neg h0, hfr, hlf, hsz, htu, hst]
            · simp [gptStep, if_neg h0, hlf, hsz, htu, hst]
          | ok start =>
            refine Or.inr ⟨⟨upsert p.num ⟨tu.toBytesLe, (rng1 i).toBytesLe, start,
                start + size - 1, 0, p.label.getD ""⟩ st1.table,
                if p.usage = PartitionUsage.Rootfs then p.num else st1.root_partnum,
                if p.usage = PartitionUsage.Rootfs then rng1 i else st1.root_partuuid⟩,
              ⟨upsert p.num ⟨tu.toBytesLe, (rng2 j).toBytesLe, start,
                start + size - 1, 0, p.label.getD ""⟩ st2.table,
                if p.usage = PartitionUsage.Rootfs then p.num else st2.root_partnum,
                if p.usage = PartitionUsage.Rootfs then rng2 j else st2.root_partuuid⟩,
              ?_, ?_, ?_, ?_⟩
            · simp [gptStep, if_neg h0, hfr, hlf, hsz, htu, hst]
            · simp [gptStep, if_neg h0, hlf, hsz, htu, hst]
            · show scrubGptTable (upsert p.num _ st1.table) =
                scrubGptTable (upsert p.num _ st2.table)
              rw [scrubGptTable_upsert, scrubGptTable_upsert, hT]
              rfl
            · show (if p.usage = PartitionUsage.Rootfs then p.num else st1.root_partnum) =
                (if p.usage = PartitionUsage.Rootfs then p.num else st2.root_partnum)
              rw [hN]

theorem gptLoop_det {np ss disk : Nat} {rng1 rng2 : Nat → Uuid}
    {l : List PartitionSpec} :
    ∀ {i j : Nat} {st1 st2 : GptState}, gptStRel st1 st2 →
    (∃ e, gptLoop np ss disk rng1 i st1 l = .error e ∧
          gptLoop np ss disk rng2 j st2 l = .error e) ∨
    (∃ s1 s2, gptLoop np ss disk rng1 i st1 l = .ok s1 ∧
              gptLoop np ss disk rng2 j st2 l = .ok s2 ∧ gptStRel s1 s2) := by
  induction l with
  | nil =>
    intro i j st1 st2 hR
    exact Or.inr ⟨st1, st2, rfl, rfl, hR⟩
  | cons p rest ih =>
    intro i j st1 st2 hR
    rcases @gptStep_det np ss disk rng1 rng2 i j st1 st2 hR p with
      ⟨e, h1, h2⟩ | ⟨s1, s2, h1, h2, hR2⟩
    · exact Or.inl ⟨e, by simp [gptLoop, h1], by simp [gptLoop, h2]⟩
    · rcases @ih (i + 1) (j + 1) s1 s2 hR2 with ⟨e, k1, k2⟩ | ⟨t1, t2, k1, k2, hR3⟩
      · exact Or.inl ⟨e, by simp [gptLoop, h1, k1], by simp [gptLoop, h2, k2]⟩
      · exact Or.inr ⟨t1, t2, by simp [gptLoop, h1, k1], by simp [gptLoop, h2, k2], hR3⟩

theorem mbrStep_det {np ss disk : Nat} {rid1 rid2 : Nat} {st1 st2 : MbrState}
    (hR : mbrStRel st1 st2) (p : PartitionSpec) :
    (∃ e, mbrStep np ss disk rid1 st1 p = .error e ∧
          mbrStep np ss disk rid2 st2 p = .error e) ∨
    (∃ s1 s2, mbrStep np ss disk rid1 st1 p = .ok s1 ∧
              mbrStep np ss disk rid2 st2 p = .ok s2 ∧ mbrStRel s1 s2) := by
  obtain ⟨hT, hN⟩ := hR
  by_cases h0 : p.num = 0
  · exact Or.inl ⟨"Partition number must start from 1.", by simp [mbrStep, if_pos h0],
      by simp [mbrStep, if_pos h0]⟩
  · by_cases h4 : 4 < p.num
    · exact Or.inl ⟨"Extended and logical partitions are not supported.",
        by simp [mbrStep, if_neg h0, if_pos h4], by simp [mbrStep, if_neg h0, if_pos h4]⟩
    · cases hlf : (mbrFreeSectors ss disk st2.table).getLast? with
      | none =>
        refine Or.inl ⟨"No more free space available for new partitions", ?_, ?_⟩
        · simp [mbrStep, if_neg h0, if_neg h4, hT, hlf]
        · simp [mbrStep, if_neg h0, if_neg h4, hlf]
      | some lf =>
        cases hsec : resolveSectorsMbr np lf.2 p with
        | error e =>
          refine Or.inl ⟨e, ?_, ?_⟩
          · simp [mbrStep, if_neg h0, if_neg h4, hT, hlf, hsec]
          · simp [mbrStep, if_neg h0, if_neg h4, hlf, hsec]
        | ok sectors =>
          by_cases hmin : sectors < 1048576 / ss
          · refine Or.inl ⟨"Not enough free space to create a partition", ?_, ?_⟩
            · simp [mbrStep, if_neg h0, if_neg h4, hT, hlf, hsec, if_pos hmin]
            · simp [mbrStep, if_neg h0, if_neg h4, hlf, hsec, if_pos hmin]
          · cases hst : resolveStartMbr ss (mbrFreeSectors ss disk st2.table) sectors p with
            | error e =>
              refine Or.inl ⟨e, ?_, ?_⟩
              · simp [mbrStep, if_neg h0, if_neg h4, hT, hlf, hsec, if_neg hmin, hst]
              · simp [mbrStep, if_neg h0, if_neg h4, hlf, hsec, if_neg hmin, hst]
            | ok start =>
              cases hsys : p.part_type.to_byte with
              | error e =>
                refine Or.inl ⟨e, ?_, ?_⟩
                · simp [mbrStep, if_neg h0, if_neg h4, hT, hlf, hsec, if_neg hmin, hst,
                    hsys]
                · simp [mbrStep, if_neg h0, if_neg h4, hlf, hsec, if_neg hmin, hst, hsys]
              | ok sys =>
                refine Or.inr ⟨⟨upsert p.num ⟨decide (p.usage = PartitionUsage.Boot), sys,
                    start, sectors⟩ st1.table,
                    if p.usage = PartitionUsage.Rootfs then p.num else st1.root_partnum,
                    if p.usage = PartitionUsage.Rootfs then
                      hexStr 8 rid1 ++ "-" ++ hexStr 2 p.num
                    else st1.root_partuuid⟩,
                  ⟨upsert p.num ⟨decide (p.usage = PartitionUsage.Boot), sys,
                    start, sectors⟩ st2.table,
                    if p.usage = PartitionUsage.Rootfs then p.num else st2.root_partnum,
                    if p.usage = PartitionUsage.Rootfs then
                      hexStr 8 rid2 ++ "-" ++ hexStr 2 p.num
                    else st2.root_partuuid⟩,
                  ?_, ?_, ?_, ?_⟩
                · simp [mbrStep, if_neg h0, if_neg h4, hT, hlf, hsec, if_neg hmin, hst,
                    hsys]
                · simp [mbrStep, if_neg h0, if_neg h4, hlf, hsec, if_neg hmin, hst, hsys]
                · show upsert p.num _ st1.table = upsert p.num _ st2.table
                  rw [hT]
                · show (if p.usage = PartitionUsage.Rootfs then p.num
                      else st1.root_partnum) =
                    (if p.usage = PartitionUsage.Rootfs then p.num else st2.root_partnum)
                  rw [hN]

theorem mbrLoop_det {np ss disk : Nat} {rid1 rid2 : Nat} {l : List PartitionSpec} :
    ∀ {st1 st2 : MbrState}, mbrStRel st1 st2 →
    (∃ e, mbrLoop np ss disk rid1 st1 l = .error e ∧
          mbrLoop np ss disk rid2 st2 l = .error e) ∨
    (∃ s1 s2, mbrLoop np ss disk rid1 st1 l = .ok s1 ∧
              mbrLoop np ss disk rid2 st2 l = .ok s2 ∧ mbrStRel s1 s2) := by
  induction l with
  | nil =>
    intro st1 st2 hR
    exact Or.inr ⟨st1, st2, rfl, rfl, hR⟩
  | cons p rest ih =>
    intro st1 st2 hR
    rcases @mbrStep_det np ss disk rid1 rid2 st1 st2 hR p with
      ⟨e, h1, h2⟩ | ⟨s1, s2, h1, h2, hR2⟩
    · exact Or.inl ⟨e, by simp [mbrLoop, h1], by simp [mbrLoop, h2]⟩
    · rcases @ih s1 s2 hR2 with ⟨e, k1, k2⟩ | ⟨t1, t2, k1, k2, hR3⟩
      · exact Or.inl ⟨e, by simp [mbrLoop, h1, k1], by simp [mbrLoop, h2, k2]⟩
      · exact Or.inr ⟨t1, t2, by simp [mbrLoop, h1, k1], by simp [mbrLoop, h2, k2], hR3⟩

theorem partition_gpt_shape_eq (d : DeviceSpec) (ss disk : Nat)
    (rng1 rng2 : Nat → Uuid) :
    gptShape (partition_gpt d ss disk rng1) = gptShape (partition_gpt d ss disk rng2) := by
  have h0 : gptStRel ⟨[], 0, uuidNil⟩ ⟨[], 0, uuidNil⟩ := ⟨rfl, rfl⟩
  rcases @gptLoop_det d.num_partitions ss disk rng1 rng2 d.partitions 1 1 _ _ h0 with
    ⟨e, h1, h2⟩ | ⟨s1, s2, h1, h2, hR⟩
  · simp [partition_gpt, gptShape, h1, h2]
  · simp [partition_gpt, gptShape, h1, h2, Except.map, hR.1, hR.2]

theorem partition_mbr_shape_eq (d : DeviceSpec) (ssr disk rid1 rid2 : Nat) :
    mbrShape (partition_mbr d ssr disk rid1) = mbrShape (partition_mbr d ssr disk rid2) := by
  have h0 : mbrStRel ⟨[], 0, ""⟩ ⟨[], 0, ""⟩ := ⟨rfl, rfl⟩
  rcases @mbrLoop_det d.num_partitions (mbrSectorSize ssr) disk rid1 rid2 d.partitions
      _ _ h0 with ⟨e, h1, h2⟩ | ⟨s1, s2, h1, h2, hR⟩
  · simp [partition_mbr, mbrShape, h1, h2]
  · simp [partition_mbr, mbrShape, h1, h2, Except.map, hR.1, hR.2]

theorem exceptMap_isOk (f : α → β) (x : Except String α) : (x.map f).isOk = x.isOk := by
  cases x <;> rfl

theorem leBytes4_inj {a b : Nat} (ha : a < 4294967296) (hb : b < 4294967296)
    (h : leBytes4 a = leBytes4 b) : a = b := by
  have hda := nat32_bytes a ha
  have hdb := nat32_bytes b hb
  simp only [leBytes4, List.cons.injEq, and_true] at h
  obtain ⟨h1, h2, h3, h4⟩ := h
  omega

/-! ## Validator scan consequences -/

theorem scanCondB_pairwise {fsCheck : FilesystemType → Option String → Except String Unit}
    {pm : PartitionMapType} :
    ∀ {l : List PartitionSpec} {last : Nat}, scanCondB fsCheck pm last l = true →
    List.Pairwise (fun a b => a.num < b.num) l ∧ ∀ p ∈ l, last < p.num := by
  intro l
  induction l with
  | nil =>
    intro last h
    exact ⟨List.Pairwise.nil, by intro p hp; cases hp⟩
  | cons p rest ih =>
    intro last h
    simp only [scanCondB, Bool.and_eq_true, decide_eq_true_eq] at h
    obtain ⟨⟨⟨⟨hswap, hlt⟩, hlab⟩, hfs⟩, hrest⟩ := h
    obtain ⟨hpw, hgt⟩ := ih hrest
    refine ⟨List.Pairwise.cons (fun b hb => hgt b hb) hpw, ?_⟩
    intro q hq
    rcases List.mem_cons.mp hq with rfl | hq2
    · exact hlt
    · exact lt_trans hlt (hgt q hq2)

theorem scanCondB_label {fsCheck : FilesystemType → Option String → Except String Unit}
    {pm : PartitionMapType} :
    ∀ {l : List PartitionSpec} {last : Nat}, scanCondB fsCheck pm last l = true →
    ∀ p ∈ l, labelOkB pm p = true := by
  intro l
  induction l with
  | nil =>
    intro last h p hp
    cases hp
  | cons q rest ih =>
    intro last h p hp
    simp only [scanCondB, Bool.and_eq_true, decide_eq_true_eq] at h
    obtain ⟨⟨⟨⟨hswap, hlt⟩, hlab⟩, hfs⟩, hrest⟩ := h
    rcases List.mem_cons.mp hp with rfl | hp2
    · exact hlab
    · exact ih hrest p hp2

theorem uA_WF : uA.WF := by decide

theorem uB_WF : uB.WF := by decide

theorem uA_ne_uB : uA ≠ uB := by decide

/-! ## Claims -/

/-- C1 (amended): `DeviceSpec.check` succeeds if and only if the
identity fields are ASCII and free of the forbidden characters, the
human-facing fields are free of the forbidden characters, the partition
list is non-empty, `num_partitions` equals its length, the capacity of
the partition map is respected (4 for MBR, 128 for GPT), partition
numbers are nonzero and strictly increasing (not necessarily starting
at 1), no partition has Swap type, labels are absent under MBR and at
most 35 UTF-8 bytes under GPT, every filesystem-label check passes, and
exactly one partition has Rootfs usage. -/
theorem C1_validator_iff (fsCheck : FilesystemType → Option String → Except String Unit)
    (d : DeviceSpec) :
    DeviceSpec.check fsCheck d = .ok () ↔ checkCondB fsCheck d = true :=
  check_ok_iff fsCheck d

/-- C1 counterexample: a DeviceSpec whose single partition is numbered
2 passes `DeviceSpec.check`, yet the claim's condition "partition
numbers form a strictly increasing sequence starting at 1" fails, so
the claimed equivalence is false. -/
theorem C1_counterexample :
    DeviceSpec.check fsOkAll exC1 = .ok () ∧ c1ClaimCond exC1 = false :=
  ⟨rfl, rfl⟩

/-- C2 (amended): in both builders a size-0 partition is accepted only
when its number equals the declared `num_partitions` (not necessarily
the highest partition number), and the entry created for it spans the
length of the last free range at its placement minus one sector. -/
theorem C2_size0_at_num_partitions (d : DeviceSpec) (ss disk : Nat) (rng : Nat → Uuid)
    (ssr disk2 rid : Nat) :
    ((partition_gpt d ss disk rng).2.isOk = true →
      ∀ p ∈ d.partitions, p.size = 0 → p.num = d.num_partitions) ∧
    ((partition_mbr d ssr disk2 rid).2.isOk = true →
      ∀ p ∈ d.partitions, p.size = 0 → p.num = d.num_partitions) ∧
    (∀ i st st2 p, p.size = 0 →
      gptStep d.num_partitions ss disk rng i st p = .ok st2 →
      ∃ lf, (gptFreeSectors ss disk st.table).getLast? = some lf ∧
        resolveSizeGpt d.num_partitions ss lf.2 p = .ok (lf.2 - 1) ∧
        ∃ e, lookupPart st2.table p.num = some e ∧
          e.ending_lba = e.starting_lba + (lf.2 - 1) - 1) ∧
    (∀ st st2 p, p.size = 0 →
      mbrStep d.num_partitions (mbrSectorSize ssr) disk2 rid st p = .ok st2 →
      ∃ lf, (mbrFreeSectors (mbrSectorSize ssr) disk2 st.table).getLast? = some lf ∧
        resolveSectorsMbr d.num_partitions lf.2 p = .ok (lf.2 - 1) ∧
        ∃ e, lookupPart st2.table p.num = some e ∧ e.sectors = lf.2 - 1) := by
  refine ⟨?_, ?_, ?_, ?_⟩
  · intro hok p hp h0
    obtain ⟨st, hl, -⟩ := partition_gpt_ok_inv hok
    obtain ⟨j, st1, st2, hstep⟩ := gptLoop_ok_of_mem hl p hp
    exact gptStep_size0_num hstep h0
  · intro hok p hp h0
    obtain ⟨st, hl, -⟩ := partition_mbr_ok_inv hok
    obtain ⟨st1, st2, hstep⟩ := mbrLoop_ok_of_mem hl p hp
    exact mbrStep_size0_num hstep h0
  · intro i st st2 p h0 hstep
    exact gptStep_size0_resolved hstep h0
  · intro st st2 p h0 hstep
    exact mbrStep_size0_resolved hstep h0

/-- C2 counterexample: `exC2` passes the validator and its GPT build
succeeds, its size-0 partition is numbered 3 (equal to
`num_partitions`), yet partition 4 exists, so the size-0 partition is
not the highest-numbered one — refuting the claim that a successful
build forces the size-0 partition to be the highest-numbered. -/
theorem C2_counterexample :
    DeviceSpec.check fsOkAll exC2 = .ok () ∧
    (partition_gpt exC2 512 16384 rngA).2.isOk = true ∧
    mkPart 3 0 PartitionUsage.Rootfs none ∈ exC2.partitions ∧
    exC2.num_partitions = 3 ∧
    mkPart 4 1 PartitionUsage.Other (some 2048) ∈ exC2.partitions := by
  refine ⟨rfl, rfl, ?_, rfl, ?_⟩ <;> decide

/-- C2 witness: the size-0 partition of `exGptOk` (whose build
succeeds) indeed carries the declared partition count as its number. -/
theorem C2_witness :
    (mkPart 2 0 PartitionUsage.Rootfs none).num = exGptOk.num_partitions := by
  have h := (C2_size0_at_num_partitions exGptOk 512 16384 rngA 512 16384 5).1
  exact h (by decide) (mkPart 2 0 PartitionUsage.Rootfs none) (by decide) rfl

/-- C3: in every successful GPT build the stored disk GUID bytes are
the mixed-endian encoding (`to_bytes_le`) of the generated UUID, every
stored partition GUID is the mixed-endian encoding of a generated UUID,
and decoding those bytes per the RFC-4122 mixed-endian rules yields
exactly the generated UUID (round-trip). -/
theorem C3_guid_roundtrip (d : DeviceSpec) (ss disk : Nat) (rng : Nat → Uuid)
    (hWF : ∀ i, (rng i).WF) (hok : (partition_gpt d ss disk rng).2.isOk = true) :
    (gptResDiskGuid (partition_gpt d ss disk rng) = (rng 0).toBytesLe ∧
      decodeMixedEndian (gptResDiskGuid (partition_gpt d ss disk rng)) = some (rng 0)) ∧
    ∀ kv ∈ gptResTable (partition_gpt d ss disk rng),
      ∃ i, kv.2.unique_partition_guid = (rng i).toBytesLe ∧
        decodeMixedEndian kv.2.unique_partition_guid = some (rng i) := by
  obtain ⟨st, hl, heq⟩ := partition_gpt_ok_inv hok
  constructor
  · rw [heq]
    exact ⟨rfl, decode_toBytesLe (hWF 0)⟩
  · intro kv hkv
    rw [heq] at hkv
    have hkv2 : kv ∈ st.table := hkv
    obtain ⟨j, hj⟩ := gptLoop_guid hl
      (fun kv h => absurd h (List.not_mem_nil kv)) kv hkv2
    refine ⟨j, hj, ?_⟩
    rw [hj]
    exact decode_toBytesLe (hWF j)

/-- C3 witness: decoding the disk GUID written by a concrete successful
build yields exactly the UUID the builder drew. -/
theorem C3_witness :
    decodeMixedEndian (gptResDiskGuid (partition_gpt exGptOk 512 16384 rngA)) =
      some uA :=
  (C3_guid_roundtrip exGptOk 512 16384 rngA (fun _ => uA_WF) (by decide)).1.2

/-- C4: in both builders, whenever every partition numbered 1 has no
explicit `start_sector`, every table entry stored under partition
number 1 starts exactly at `1048576 / sector_size` — one 1 MiB boundary
in sectors, whatever the sector size. -/
theorem C4_first_partition_1mib (d : DeviceSpec) (ss disk ssr disk2 rid : Nat)
    (rng : Nat → Uuid)
    (h1 : ∀ p ∈ d.partitions, p.num = 1 → p.start_sector = none) :
    gptKey1Starts (partition_gpt d ss disk rng) (1048576 / ss) = true ∧
    mbrKey1Starts (partition_mbr d ssr disk2 rid) (1048576 / mbrSectorSize ssr) = true := by
  constructor
  · unfold gptKey1Starts
    rw [List.all_eq_true]
    intro kv hkv
    by_cases hok : (partition_gpt d ss disk rng).2.isOk = true
    · obtain ⟨st, hl, heq⟩ := partition_gpt_ok_inv hok
      rw [heq] at hkv
      have hkv2 : kv ∈ st.table := hkv
      have hst := gptLoop_key1 h1 hl
        (fun kv h => absurd h (List.not_mem_nil kv)) kv hkv2
      by_cases hk : kv.1 = 1
      · simp [hk, hst hk]
      · simp [hk]
    · have hT : gptResTable (partition_gpt d ss disk rng) = [] := by
        unfold gptResTable
        cases hres : (partition_gpt d ss disk rng).2 with
        | error e => rfl
        | ok r =>
          rw [hres] at hok
          exact absurd rfl hok
      rw [hT] at hkv
      cases hkv
  · unfold mbrKey1Starts
    rw [List.all_eq_true]
    intro kv hkv
    by_cases hok : (partition_mbr d ssr disk2 rid).2.isOk = true
    · obtain ⟨st, hl, heq⟩ := partition_mbr_ok_inv hok
      rw [heq] at hkv
      have hkv2 : kv ∈ st.table := hkv
      have hst := mbrLoop_key1 h1 hl
        (fun kv h => absurd h (List.not_mem_nil kv)) kv hkv2
      by_cases hk : kv.1 = 1
      · simp [hk, hst hk]
      · simp [hk]
    · have hT : mbrResTable (partition_mbr d ssr disk2 rid) = [] := by
        unfold mbrResTable
        cases hres : (partition_mbr d ssr disk2 rid).2 with
        | error e => rfl
        | ok r =>
          rw [hres] at hok
          exact absurd rfl hok
      rw [hT] at hkv
      cases hkv

/-- C4 witness: with 512-byte sectors partition 1 lands on LBA 2048,
with 4096-byte sectors on LBA 256, and likewise for the MBR builder. -/
theorem C4_witness :
    gptKey1Starts (partition_gpt exGptOk 512 16384 rngA) 2048 = true ∧
    gptKey1Starts (partition_gpt exGptOk 4096 16384 rngA) 256 = true ∧
    mbrKey1Starts (partition_mbr exMbrOk 512 16384 5) 2048 = true := by
  refine ⟨?_, ?_, ?_⟩
  · exact (C4_first_partition_1mib exGptOk 512 16384 512 16384 5 rngA (by decide)).1
  · exact (C4_first_partition_1mib exGptOk 4096 16384 512 16384 5 rngA (by decide)).1
  · exact (C4_first_partition_1mib exMbrOk 4096 16384 512 16384 5 rngA (by decide)).2

/-- C5 (amended): a validated DeviceSpec containing two size-0
partitions is always rejected by both builders before any device
write. -/
theorem C5_two_size0_rejected (fsCheck : FilesystemType → Option String → Except String Unit)
    (d : DeviceSpec) (ss disk : Nat) (rng : Nat → Uuid) (ssr disk2 rid : Nat)
    (i j : Nat) (hij : i < j) (hj : j < d.partitions.length)
    (hchk : DeviceSpec.check fsCheck d = .ok ())
    (h0i : (d.partitions.get ⟨i, lt_trans hij hj⟩).size = 0)
    (h0j : (d.partitions.get ⟨j, hj⟩).size = 0) :
    ((partition_gpt d ss disk rng).2.isOk = false ∧
      (partition_gpt d ss disk rng).1 = []) ∧
    ((partition_mbr d ssr disk2 rid).2.isOk = false ∧
      (partition_mbr d ssr disk2 rid).1 = []) := by
  have hcond := (check_ok_iff fsCheck d).mp hchk
  have hscan : scanCondB fsCheck d.partition_map 0 d.partitions = true := by
    unfold checkCondB at hcond
    simp only [Bool.and_eq_true] at hcond
    exact hcond.1.2
  have hpw := (scanCondB_pairwise hscan).1
  have hlt : (d.partitions.get ⟨i, lt_trans hij hj⟩).num <
      (d.partitions.get ⟨j, hj⟩).num := by
    rw [List.pairwise_iff_get] at hpw
    exact hpw ⟨i, lt_trans hij hj⟩ ⟨j, hj⟩ hij
  have hgpt : (partition_gpt d ss disk rng).2.isOk = false := by
    cases hok : (partition_gpt d ss disk rng).2.isOk with
    | false => rfl
    | true =>
      exfalso
      obtain ⟨st, hl, -⟩ := partition_gpt_ok_inv hok
      have hall : ∀ p ∈ d.partitions, p.size = 0 → p.num = d.num_partitions := by
        intro p hp h0
        obtain ⟨jj, st1, st2, hstep⟩ := gptLoop_ok_of_mem hl p hp
        exact gptStep_size0_num hstep h0
      have e1 := hall _ (List.get_mem _ _ _) h0i
      have e2 := hall _ (List.get_mem _ _ _) h0j
      omega
  have hmbr : (partition_mbr d ssr disk2 rid).2.isOk = false := by
    cases hok : (partition_mbr d ssr disk2 rid).2.isOk with
    | false => rfl
    | true =>
      exfalso
      obtain ⟨st, hl, -⟩ := partition_mbr_ok_inv hok
      have hall : ∀ p ∈ d.partitions, p.size = 0 → p.num = d.num_partitions := by
        intro p hp h0
        obtain ⟨st1, st2, hstep⟩ := mbrLoop_ok_of_mem hl p hp
        exact mbrStep_size0_num hstep h0
      have e1 := hall _ (List.get_mem _ _ _) h0i
      have e2 := hall _ (List.get_mem _ _ _) h0j
      omega
  exact ⟨⟨hgpt, (gpt_writes d ss disk rng).1 hgpt⟩,
    ⟨hmbr, (mbr_writes d ssr disk2 rid).1 hmbr⟩⟩

/-- C5 counterexample: with two size-0 partitions the build is indeed
rejected with no write, but the error message is the fixed string "Max
sized partition must stay at the end of the table.", which contains no
digit and therefore does not name the offending lower-numbered
partition. -/
theorem C5_counterexample :
    DeviceSpec.check fsOkAll exC5 = .ok () ∧
    partition_gpt exC5 512 16384 rngA =
      ([], .error "Max sized partition must stay at the end of the table.") ∧
    ("Max sized partition must stay at the end of the table.".data.all
      fun c => !c.isDigit) = true :=
  ⟨rfl, rfl, by decide⟩

/-- C5 witness: the two-size-0 spec `exC5` is rejected by both builders
with no write events. -/
theorem C5_witness :
    ((partition_gpt exC5 512 16384 rngA).2.isOk = false ∧
      (partition_gpt exC5 512 16384 rngA).1 = []) ∧
    ((partition_mbr exC5 512 16384 7).2.isOk = false ∧
      (partition_mbr exC5 512 16384 7).1 = []) :=
  C5_two_size0_rejected fsOkAll exC5 512 16384 rngA 512 16384 7 0 1 (by decide)
    (by decide) rfl rfl rfl

/-- C6 (amended): an MBR DeviceSpec declaring a partition numbered
above 4 never builds — the MBR builder fails before any byte is
written (the validator may reject first for other reasons, and an
earlier per-partition fault may surface a different message than the
extended/logical one). -/
theorem C6_num_gt4_rejected (d : DeviceSpec) (ssr disk rid : Nat)
    (h : ∃ p ∈ d.partitions, 4 < p.num) :
    (partition_mbr d ssr disk rid).2.isOk = false ∧
    (partition_mbr d ssr disk rid).1 = [] := by
  obtain ⟨p, hp, h4⟩ := h
  have hf : (partition_mbr d ssr disk rid).2.isOk = false := by
    cases hok : (partition_mbr d ssr disk rid).2.isOk with
    | false => rfl
    | true =>
      exfalso
      obtain ⟨st, hl, -⟩ := partition_mbr_ok_inv hok
      obtain ⟨st1, st2, hstep⟩ := mbrLoop_ok_of_mem hl p hp
      obtain ⟨-, hle4, -⟩ := mbrStep_ok_inv hstep
      omega
  exact ⟨hf, (mbr_writes d ssr disk rid).1 hf⟩

/-- C6 counterexample: `exC6` declares a 5th partition, passes the
validator, and its MBR build fails before writing — but with the
message "Not enough free space to create a partition" (the undersized
first partition faults first), not the extended/logical-unsupported
message the claim requires. -/
theorem C6_counterexample :
    DeviceSpec.check fsOkAll exC6 = .ok () ∧
    partition_mbr exC6 512 16384 77 =
      ([], .error "Not enough free space to create a partition") ∧
    "Not enough free space to create a partition" ≠
      "Extended and logical partitions are not supported." :=
  ⟨rfl, rfl, by decide⟩

/-- C6 witness: the MBR build of `exC6` (which declares partition 5)
fails with no write events. -/
theorem C6_witness :
    (partition_mbr exC6 512 16384 77).2.isOk = false ∧
    (partition_mbr exC6 512 16384 77).1 = [] :=
  C6_num_gt4_rejected exC6 512 16384 77
    ⟨mkPart 5 4096 PartitionUsage.Other none, by decide, by decide⟩

/-- C7: the layout (write trace, error, table entries with GUIDs
scrubbed, root partition number) produced by either builder is a
function of the spec, the sector size and the disk size alone — two
runs with different random streams agree on it — while the disk
GUID/disk signature and every partition GUID come verbatim from the
per-run randomness, so runs whose random values differ produce
different identifiers. -/
theorem C7_layout_det_ids_random (d : DeviceSpec) (ss disk : Nat)
    (rng1 rng2 : Nat → Uuid) (ssr disk2 rid1 rid2 : Nat) :
    gptShape (partition_gpt d ss disk rng1) = gptShape (partition_gpt d ss disk rng2) ∧
    mbrShape (partition_mbr d ssr disk2 rid1) =
      mbrShape (partition_mbr d ssr disk2 rid2) ∧
    ((∀ i, (rng1 i).WF) → (∀ i, (rng2 i).WF) → (∀ i j, rng1 i ≠ rng2 j) →
      (partition_gpt d ss disk rng1).2.isOk = true →
      gptResDiskGuid (partition_gpt d ss disk rng1) ≠
          gptResDiskGuid (partition_gpt d ss disk rng2) ∧
      ∀ kv1 ∈ gptResTable (partition_gpt d ss disk rng1),
        ∀ kv2 ∈ gptResTable (partition_gpt d ss disk rng2),
          kv1.2.unique_partition_guid ≠ kv2.2.unique_partition_guid) ∧
    (rid1 < 4294967296 → rid2 < 4294967296 → rid1 ≠ rid2 →
      (partition_mbr d ssr disk2 rid1).2.isOk = true →
      mbrResSig (partition_mbr d ssr disk2 rid1) ≠
        mbrResSig (partition_mbr d ssr disk2 rid2)) := by
  refine ⟨partition_gpt_shape_eq d ss disk rng1 rng2,
    partition_mbr_shape_eq d ssr disk2 rid1 rid2, ?_, ?_⟩
  · intro hWF1 hWF2 hdisj hok1
    have hsh := partition_gpt_shape_eq d ss disk rng1 rng2
    have h2 : (partition_gpt d ss disk rng1).2.map
        (fun r => (scrubGptTable r.table, r.pm.root_partnum)) =
      (partition_gpt d ss disk rng2).2.map
        (fun r => (scrubGptTable r.table, r.pm.root_partnum)) := congrArg Prod.snd hsh
    have h3 := congrArg Except.isOk h2
    rw [exceptMap_isOk, exceptMap_isOk] at h3
    have hok2 : (partition_gpt d ss disk rng2).2.isOk = true := by
      rw [← h3]
      exact hok1
    obtain ⟨st1, hl1, heq1⟩ := partition_gpt_ok_inv hok1
    obtain ⟨st2, hl2, heq2⟩ := partition_gpt_ok_inv hok2
    constructor
    · rw [heq1, heq2]
      intro hcon
      have hcon2 : (rng1 0).toBytesLe = (rng2 0).toBytesLe := hcon
      exact hdisj 0 0 (toBytesLe_inj (hWF1 0) (hWF2 0) hcon2)
    · intro kv1 hkv1 kv2 hkv2
      rw [heq1] at hkv1
      rw [heq2] at hkv2
      have hkv1b : kv1 ∈ st1.table := hkv1
      have hkv2b : kv2 ∈ st2.table := hkv2
      obtain ⟨a, ha⟩ := gptLoop_guid hl1
        (fun kv h => absurd h (List.not_mem_nil kv)) kv1 hkv1b
      obtain ⟨b, hb⟩ := gptLoop_guid hl2
        (fun kv h => absurd h (List.not_mem_nil kv)) kv2 hkv2b
      intro hcon
      rw [ha, hb] at hcon
      exact hdisj a b (toBytesLe_inj (hWF1 a) (hWF2 b) hcon)
  · intro hb1 hb2 hne hok1
    have hsh := partition_mbr_shape_eq d ssr disk2 rid1 rid2
    have h2 : (partition_mbr d ssr disk2 rid1).2.map
        (fun r => (r.table, r.pm.root_partnum)) =
      (partition_mbr d ssr disk2 rid2).2.map
        (fun r => (r.table, r.pm.root_partnum)) := congrArg Prod.snd hsh
    have h3 := congrArg Except.isOk h2
    rw [exceptMap_isOk, exceptMap_isOk] at h3
    have hok2 : (partition_mbr d ssr disk2 rid2).2.isOk = true := by
      rw [← h3]
      exact hok1
    obtain ⟨st1, hl1, heq1⟩ := partition_mbr_ok_inv hok1
    obtain ⟨st2, hl2, heq2⟩ := partition_mbr_ok_inv hok2
    rw [heq1, heq2]
    intro hcon
    have hcon2 : leBytes4 rid1 = leBytes4 rid2 := hcon
    exact hne (leBytes4_inj hb1 hb2 hcon2)

/-- C7 witness: at a concrete spec, two runs with disjoint random
streams produce different disk GUIDs, and two MBR runs with different
random ids produce different disk signatures. -/
theorem C7_witness :
    gptResDiskGuid (partition_gpt exGptOk 512 16384 rngA) ≠
      gptResDiskGuid (partition_gpt exGptOk 512 16384 rngB) ∧
    mbrResSig (partition_mbr exMbrOk 512 16384 5) ≠
      mbrResSig (partition_mbr exMbrOk 512 16384 6) := by
  constructor
  · exact ((C7_layout_det_ids_random exGptOk 512 16384 rngA rngB 512 16384 5 6).2.2.1
      (fun _ => uA_WF) (fun _ => uB_WF) (fun _ _ => uA_ne_uB) (by decide)).1
  · exact (C7_layout_det_ids_random exMbrOk 512 16384 rngA rngB 512 16384 5 6).2.2.2
      (by decide) (by decide) (by decide) (by decide)

/-- C8: in both builders every error is returned with an empty write
trace — the protective MBR, the table write and the flush are emitted
only when every partition entry was placed, so a failed build leaves
the device contents untouched. -/
theorem C8_writes_after_loop (d : DeviceSpec) (ss disk : Nat) (rng : Nat → Uuid)
    (ssr disk2 rid : Nat) :
    ((partition_gpt d ss disk rng).2.isOk = false →
      (partition_gpt d ss disk rng).1 = []) ∧
    ((partition_gpt d ss disk rng).2.isOk = true →
      (partition_gpt d ss disk rng).1 =
        [WriteEvent.ProtectiveMbr, WriteEvent.GptTable, WriteEvent.Flush]) ∧
    ((partition_mbr d ssr disk2 rid).2.isOk = false →
      (partition_mbr d ssr disk2 rid).1 = []) ∧
    ((partition_mbr d ssr disk2 rid).2.isOk = true →
      (partition_mbr d ssr disk2 rid).1 = [WriteEvent.MbrTable, WriteEvent.Flush]) :=
  ⟨(gpt_writes d ss disk rng).1, (gpt_writes d ss disk rng).2,
   (mbr_writes d ssr disk2 rid).1, (mbr_writes d ssr disk2 rid).2⟩

/-- C8 witness: a failing build emits no write events and a successful
one emits exactly protective MBR, table and flush. -/
theorem C8_witness :
    (partition_gpt exC5 512 16384 rngA).1 = [] ∧
    (partition_gpt exGptOk 512 16384 rngA).1 =
      [WriteEvent.ProtectiveMbr, WriteEvent.GptTable, WriteEvent.Flush] := by
  constructor
  · exact (C8_writes_after_loop exC5 512 16384 rngA 512 16384 5).1 (by decide)
  · exact (C8_writes_after_loop exGptOk 512 16384 rngA 512 16384 5).2.1 (by decide)

/-- C9: the MBR builder applies the 1 MiB (in sectors) minimum to every
partition: an explicitly sized partition below the minimum makes the
build fail, and every entry of a successful build spans at least the
minimum. -/
theorem C9_mbr_min_size (d : DeviceSpec) (ssr disk rid : Nat) :
    (∀ p ∈ d.partitions, p.size ≠ 0 → p.size < 1048576 / mbrSectorSize ssr →
      (partition_mbr d ssr disk rid).2.isOk = false) ∧
    ((partition_mbr d ssr disk rid).2.isOk = true →
      ∀ kv ∈ mbrResTable (partition_mbr d ssr disk rid),
        1048576 / mbrSectorSize ssr ≤ kv.2.sectors) := by
  constructor
  · intro p hp h0 hsmall
    cases hok : (partition_mbr d ssr disk rid).2.isOk with
    | false => rfl
    | true =>
      exfalso
      obtain ⟨st, hl, -⟩ := partition_mbr_ok_inv hok
      obtain ⟨st1, st2, hstep⟩ := mbrLoop_ok_of_mem hl p hp
      have := mbrStep_explicit_min hstep h0
      omega
  · intro hok kv hkv
    obtain ⟨st, hl, heq⟩ := partition_mbr_ok_inv hok
    rw [heq] at hkv
    have hkv2 : kv ∈ st.table := hkv
    exact mbrLoop_sectors_min hl
      (fun kv h => absurd h (List.not_mem_nil kv)) kv hkv2

/-- C9 witness: the MBR build of `exC6`, whose first partition asks for
100 sectors (< 2048), fails. -/
theorem C9_witness : (partition_mbr exC6 512 16384 77).2.isOk = false :=
  (C9_mbr_min_size exC6 512 16384 77).1 (mkPart 1 100 PartitionUsage.Rootfs none)
    (by decide) (by decide) (by decide)

/-- C10: the validator compares the label length in UTF-8 bytes with
35, so a GPT DeviceSpec with a partition label of more than 35 encoded
bytes is rejected, even when the label has 35 or fewer characters. -/
theorem C10_label_byte_length
    (fsCheck : FilesystemType → Option String → Except String Unit)
    (d : DeviceSpec) (p : PartitionSpec) (l : String)
    (_hgpt : d.partition_map = PartitionMapType.GPT)
    (hp : p ∈ d.partitions) (hl : p.label = some l) (hlen : 35 < l.utf8ByteSize) :
    DeviceSpec.check fsCheck d ≠ .ok () := by
  intro hok
  have hcond := (check_ok_iff fsCheck d).mp hok
  have hscan : scanCondB fsCheck d.partition_map 0 d.partitions = true := by
    unfold checkCondB at hcond
    simp only [Bool.and_eq_true] at hcond
    exact hcond.1.2
  have hlabOk := scanCondB_label hscan p hp
  unfold labelOkB at hlabOk
  rw [hl] at hlabOk
  simp only [Bool.and_eq_true, decide_eq_true_eq] at hlabOk
  omega

/-- C10 witness: a 12-character label of 36 UTF-8 bytes is rejected by
the validator on a GPT spec. -/
theorem C10_witness :
    c10Label.length ≤ 35 ∧ 35 < c10Label.utf8ByteSize ∧
    DeviceSpec.check fsOkAll exC10 ≠ .ok () := by
  refine ⟨by decide, by decide, ?_⟩
  exact C10_label_byte_length fsOkAll exC10
    ⟨1, 0, PartitionType.Linux, PartitionUsage.Rootfs, none, some c10Label, none,
      FilesystemType.Ext4⟩ c10Label rfl (by decide) rfl (by decide)

end Mkrawimg
